import Mathlib

/-!
Verification of the kb_python pipeline orchestration layer (`count.py`,
`config.py`) against its natural-language specification.

The source code is embedded shallowly: every external-tool invocation the
Python code performs is recorded as an event in a trace, commands being the
exact argument lists the source builds.  Command arguments are tagged by
provenance: `Arg.lit` for string literals written in the source, `Arg.sym`
for caller-supplied plain strings, `Arg.path` for file/directory paths and
`Arg.num` for integer arguments.  File moves and direct file-content
accesses performed by the Python code itself (not by the external binaries)
are recorded as `Event.move`, `Event.read` and `Event.write` events.

Helper functions defined elsewhere in the repository (in `utils.py`,
`constants.py`, `report.py`, which are not part of the analysed sources)
are modelled as abstract fields of an `Env` record or, for filename
constants, as plausible literal constants; the claims do not depend on
their concrete values.
-/

namespace KbPython

/-- One command-line argument, tagged with its provenance in the source. -/
inductive Arg where
  | lit (s : String)
  | sym (s : String)
  | path (p : String)
  | num (n : Nat)
deriving DecidableEq, Repr

/-- Observable actions of the orchestration code: spawning an external
command, moving a file whole, and reading or writing file contents
directly (file contents are modelled as lists of lines). -/
inductive Event where
  | cmd (args : List Arg)
  | move (src dst : String)
  | read (p : String)
  | write (p : String) (lines : List String)
deriving DecidableEq, Repr

/-- A run trace: the sequence of observable actions. -/
abbrev Trace := List Event

/-- Python dictionaries of output paths, as ordered association lists. -/
abbrev Dict := List (String × String)

/-- Dictionary lookup (`d[k]` / `d.get(k)`). -/
def dget : Dict → String → Option String
  | [], _ => none
  | kv :: r, k => if kv.1 == k then some kv.2 else dget r k

/-- Dictionary lookup with `""` default. -/
def dgetD (m : Dict) (k : String) : String := (dget m k).getD ""

/-- Insert-or-replace, preserving python's dict key order. -/
def dset (m : Dict) (k v : String) : Dict :=
  if m.any (fun kv => kv.1 == k) then
    m.map (fun kv => if kv.1 == k then (k, v) else kv)
  else m ++ [(k, v)]

/-- `d.update(d2)` on path dictionaries. -/
def dupd (m m2 : Dict) : Dict := m2.foldl (fun acc kv => dset acc kv.1 kv.2) m

/-- Nested result values: python dicts whose values are either path strings
or nested dicts (used by the orchestration functions). -/
inductive RVal where
  | s (v : String)
  | d (m : List (String × RVal))

/-- A nested result dictionary. -/
abbrev RMap := List (String × RVal)

/-- Insert-or-replace on nested result dictionaries. -/
def rset (m : RMap) (k : String) (v : RVal) : RMap :=
  if m.any (fun kv => kv.1 == k) then
    m.map (fun kv => if kv.1 == k then (k, v) else kv)
  else m ++ [(k, v)]

/-- `results.update(d)` where `d` is a flat path dictionary. -/
def rupd (m : RMap) (m2 : Dict) : RMap :=
  m2.foldl (fun acc kv => rset acc kv.1 (RVal.s kv.2)) m

/-- `os.path.join` (simplified to the common relative-component case). -/
def joinPath (d f : String) : String := d ++ "/" ++ f

/-- `os.path.basename`. -/
def basename (p : String) : String :=
  match (p.splitOn "/").reverse with
  | x :: _ => x
  | [] => ""

/-- `os.path.dirname`. -/
def dirname (p : String) : String :=
  String.intercalate "/" ((p.splitOn "/").dropLast)

/-- Python `str.isspace()`: non-empty and all whitespace. -/
def pyIsSpace (s : String) : Bool := !s.isEmpty && s.data.all Char.isWhitespace

/-- `urllib.parse.urlparse(u).scheme`: the (lowercased) prefix before the
first `:` when it is a valid scheme token, `""` otherwise. -/
def urlscheme (u : String) : String :=
  match u.splitOn ":" with
  | f :: _ :: _ =>
    (match f.data with
     | c :: _ =>
       if c.isAlpha &&
          f.data.all (fun ch => ch.isAlpha || ch.isDigit || ch == '+' || ch == '-' || ch == '.')
       then f.toLower else ""
     | [] => "")
  | _ => ""

/-! Filename constants.  These are defined in `constants.py`, which is not
among the analysed sources; the values below are modelled from the names
used by `count.py`.  No claim depends on the concrete strings. -/

def BUS_FILENAME : String := "output.bus"
def ECMAP_FILENAME : String := "matrix.ec"
def TXNAMES_FILENAME : String := "transcripts.txt"
def KALLISTO_INFO_FILENAME : String := "run_info.json"
def INSPECT_FILENAME : String := "inspect.json"
def WHITELIST_FILENAME : String := "whitelist.txt"
def BUS_MASHED_FILENAME : String := "output.mashed.bus"
def BUS_MERGED_FILENAME : String := "output.merged.bus"
def ECMAP_MERGED_FILENAME : String := "matrix.merged.ec"
def SORT_CODE : String := "s"
def CORRECT_CODE : String := "c"
def PROJECT_CODE : String := "p"
def UNFILTERED_CODE : String := "unfiltered"
def FILTERED_CODE : String := "filtered"
def COUNTS_PREF : String := "cells_x_genes"
def TCC_PREF : String := "output"
def FEATURE_PREF : String := "cells_x_features"
def UNFILTERED_COUNTS_DIR : String := "counts_unfiltered"
def FILTERED_COUNTS_DIR : String := "counts_filtered"
def UNFILTERED_QUANT_DIR : String := "quant_unfiltered"
def SAVED_INDEX_FILENAME : String := "index.saved"
def FLENS_FILENAME : String := "flens.txt"
def FLD_FILENAME : String := "fld.tsv"
def GENES_FILENAME : String := "genes.txt"
def ABUNDANCE_FILENAME : String := "matrix.abundance.mtx"
def ABUNDANCE_GENE_FILENAME : String := "matrix.abundance.gene.mtx"
def ABUNDANCE_GENE_TPM_FILENAME : String := "matrix.abundance.gene.TPM.mtx"
def ABUNDANCE_TPM_FILENAME : String := "matrix.abundance.TPM.mtx"
def CELLS_FILENAME : String := "matrix.cells"
def BATCH_FILENAME : String := "batch.txt"
def KB_INFO_FILENAME : String := "kb_info.json"
def FILTER_WHITELIST_FILENAME : String := "filter_barcodes.txt"
def CAPTURE_FILENAME : String := "capture.txt"
def INTERNAL_SUFFIX : String := ".internal"
def UMI_SUFFIX : String := ".umi"
def BUS_CDNA_PREF : String := "spliced"
def BUS_INTRON_PREF : String := "unspliced"
def CELLRANGER_DIR : String := "cellranger"
def CELLRANGER_MATRIX : String := "matrix.mtx"
def CELLRANGER_BARCODES : String := "barcodes.tsv"
def CELLRANGER_GENES : String := "genes.tsv"
def ADATA_PREF : String := "adata"
def REPORT_NOTEBOOK_FILENAME : String := "report.ipynb"
def REPORT_HTML_FILENAME : String := "report.html"

/-- File contents, as an oracle from a path to that file's lines. -/
abbrev Oracle := String → List String

/-- Ambient environment.  `kallisto_path` / `bustools_path` model the
`config.py` globals returned by `get_kallisto_binary_path` /
`get_bustools_binary_path`; `exists_path` models `os.path.exists`.
The remaining fields model repository helpers defined outside the analysed
sources:

* `whitelist_provided`, `copy_whitelist`, `copy_map` — modelled from the
  spec: `utils.py` helpers that test for and copy a pre-packaged
  technology whitelist (resp. feature-barcode map) into a directory,
  returning the copied file's path;
* `update_filename` — modelled from the spec: `utils.update_filename`,
  which derives a new filename from a base filename and a code;
* `t2g` — modelled from the spec: `utils.read_t2g`, which parses the
  transcript-to-gene mapping file at the given path into a map from a
  transcript to its attribute tuple. -/
structure Env where
  kallisto_path : String
  bustools_path : String
  exists_path : String → Bool
  whitelist_provided : String → Bool
  copy_whitelist : String → String → String
  copy_map : String → String → String
  update_filename : String → String → String
  t2g : String → String → Option (List String)

/-- The `fastqs` argument of `count`: either a list of FASTQ paths or a
single batch-definition file path (a python `str`). -/
inductive Fastqs where
  | files (l : List String)
  | batchFile (p : String)
deriving DecidableEq, Repr

/-- `isinstance(fastqs, str)`. -/
def Fastqs.isBatch : Fastqs → Bool
  | .files _ => false
  | .batchFile _ => true

/-- Iterating a python `str` iterates its characters: passing a batch-file
string where a list is expected yields the list of one-character strings.
(This mirrors what `stream_fastqs` would receive inside
`kallisto_bus_split` when `count` is called with a batch file and several
indices.) -/
def Fastqs.asList : Fastqs → List String
  | .files l => l
  | .batchFile p => p.data.map (fun c => String.mk [c])

/-- The batch-file path of a `Fastqs.batchFile` value. -/
def Fastqs.batchPath : Fastqs → String
  | .files _ => ""
  | .batchFile p => p

/-- `technology.upper() in ('BULK', 'SMARTSEQ2')`. -/
def isCmTech (technology : String) : Bool :=
  technology.toUpper == "BULK" || technology.toUpper == "SMARTSEQ2"

/-! ## Wrappers over the external binaries (`count.py`) -/

/-- Embeds `kallisto_pseudo`: runs `kallisto pseudo`. -/
def kallisto_pseudo (env : Env) (batch_path index_path out_dir : String)
    (threads : Nat := 8) : Dict × Trace :=
  let command : List Arg :=
    [Arg.sym env.kallisto_path, Arg.lit "pseudo"]
    ++ [Arg.lit "--quant"]
    ++ [Arg.lit "-i", Arg.path index_path]
    ++ [Arg.lit "-o", Arg.path out_dir]
    ++ [Arg.lit "-b", Arg.path batch_path]
    ++ [Arg.lit "-t", Arg.num threads]
  ([("mtx", joinPath out_dir ABUNDANCE_FILENAME),
    ("ecmap", joinPath out_dir ECMAP_FILENAME),
    ("cells", joinPath out_dir CELLS_FILENAME),
    ("txnames", joinPath out_dir TXNAMES_FILENAME),
    ("info", joinPath out_dir KALLISTO_INFO_FILENAME)],
   [Event.cmd command])

/-- Embeds `kallisto_bus`: runs `kallisto bus`. -/
def kallisto_bus (env : Env) (fastqs : Fastqs) (index_path technology out_dir : String)
    (threads : Nat := 8) (n : Bool := false) (k : Bool := false)
    (paired : Bool := false) (strand : Option String := none) : Dict × Trace :=
  let results : Dict :=
    [("bus", joinPath out_dir BUS_FILENAME),
     ("ecmap", joinPath out_dir ECMAP_FILENAME),
     ("txnames", joinPath out_dir TXNAMES_FILENAME),
     ("info", joinPath out_dir KALLISTO_INFO_FILENAME)]
  let is_batch := fastqs.isBatch
  let command : List Arg :=
    [Arg.sym env.kallisto_path, Arg.lit "bus"]
    ++ [Arg.lit "-i", Arg.path index_path]
    ++ [Arg.lit "-o", Arg.path out_dir]
    ++ (if is_batch then [] else [Arg.lit "-x", Arg.sym technology])
    ++ [Arg.lit "-t", Arg.num threads]
    ++ (if n then [Arg.lit "--num"] else [])
    ++ (if k then [Arg.lit "--kmer"] else [])
    ++ (if paired then [Arg.lit "--paired"] else [])
    ++ (match strand with
        | some "unstranded" => [Arg.lit "--unstranded"]
        | some "forward" => [Arg.lit "--fr-stranded"]
        | some "reverse" => [Arg.lit "--rf-stranded"]
        | _ => [])
    ++ (match fastqs with
        | .batchFile p => [Arg.lit "--batch", Arg.path p]
        | .files l => l.map Arg.path)
  let results := if paired
    then results ++ [("flens", joinPath out_dir FLENS_FILENAME)] else results
  let results := if technology.toUpper == "BULK" || technology.toUpper == "SMARTSEQ3"
    then results ++ [("saved_index", joinPath out_dir SAVED_INDEX_FILENAME)] else results
  (results, [Event.cmd command])

/-- Embeds `kallisto_quant_tcc`: runs `kallisto quant-tcc`. -/
def kallisto_quant_tcc (env : Env)
    (mtx_path saved_index_path ecmap_path t2g_path out_dir : String)
    (flens_path : Option String := none) (l : Option Nat := none)
    (s : Option Nat := none) (threads : Nat := 8) : Dict × Trace :=
  let command : List Arg :=
    [Arg.sym env.kallisto_path, Arg.lit "quant-tcc"]
    ++ [Arg.lit "-o", Arg.path out_dir]
    ++ [Arg.lit "-i", Arg.path saved_index_path]
    ++ [Arg.lit "-e", Arg.path ecmap_path]
    ++ [Arg.lit "-g", Arg.path t2g_path]
    ++ [Arg.lit "-t", Arg.num threads]
    ++ (match flens_path with | some f => [Arg.lit "-f", Arg.path f] | none => [])
    ++ (match l with | some v => [Arg.lit "-l", Arg.num v] | none => [])
    ++ (match s with | some v => [Arg.lit "-s", Arg.num v] | none => [])
    ++ [Arg.path mtx_path]
  ([("genes", joinPath out_dir GENES_FILENAME),
    ("gene_mtx", joinPath out_dir ABUNDANCE_GENE_FILENAME),
    ("gene_tpm_mtx", joinPath out_dir ABUNDANCE_GENE_TPM_FILENAME),
    ("mtx", joinPath out_dir ABUNDANCE_FILENAME),
    ("tpm_mtx", joinPath out_dir ABUNDANCE_TPM_FILENAME),
    ("fld", joinPath out_dir FLD_FILENAME),
    ("txnames", joinPath out_dir TXNAMES_FILENAME)],
   [Event.cmd command])

/-- Embeds `bustools_mash`: runs `bustools mash` and additionally combines
the per-part `run_info.json` files into one (the JSON merge itself is
abstracted: the combined content is modelled as the concatenation of the
parts' lines). -/
def bustools_mash (env : Env) (o : Oracle) (out_dirs : List String)
    (out_dir : String) : Dict × Trace :=
  let command : List Arg :=
    [Arg.sym env.bustools_path, Arg.lit "mash"]
    ++ [Arg.lit "-o", Arg.path out_dir]
    ++ out_dirs.map Arg.path
  let info_path := joinPath out_dir KALLISTO_INFO_FILENAME
  let combined := (out_dirs.map (fun d => o (joinPath d KALLISTO_INFO_FILENAME))).flatten
  ([("bus", joinPath out_dir BUS_MASHED_FILENAME),
    ("ecmap", joinPath out_dir ECMAP_FILENAME),
    ("txnames", joinPath out_dir TXNAMES_FILENAME),
    ("info", info_path)],
   [Event.cmd command]
   ++ out_dirs.map (fun d => Event.read (joinPath d KALLISTO_INFO_FILENAME))
   ++ [Event.write info_path combined])

/-- Embeds `bustools_merge`: runs `bustools merge`. -/
def bustools_merge (env : Env) (bus_path out_dir ecmap_path txnames_path : String) :
    Dict × Trace :=
  let command : List Arg :=
    [Arg.sym env.bustools_path, Arg.lit "merge"]
    ++ [Arg.lit "-o", Arg.path out_dir]
    ++ [Arg.lit "-e", Arg.path ecmap_path]
    ++ [Arg.lit "-t", Arg.path txnames_path]
    ++ [Arg.path bus_path]
  ([("bus", joinPath out_dir BUS_MERGED_FILENAME),
    ("ecmap", joinPath out_dir ECMAP_MERGED_FILENAME)],
   [Event.cmd command])

/-- Embeds `bustools_project`: runs `bustools project`. -/
def bustools_project (env : Env) (bus_path out_path map_path ecmap_path txnames_path : String) :
    Dict × Trace :=
  let command : List Arg :=
    [Arg.sym env.bustools_path, Arg.lit "project"]
    ++ [Arg.lit "-o", Arg.path out_path]
    ++ [Arg.lit "-m", Arg.path map_path]
    ++ [Arg.lit "-e", Arg.path ecmap_path]
    ++ [Arg.lit "-t", Arg.path txnames_path]
    ++ [Arg.lit "--barcode"]
    ++ [Arg.path bus_path]
  ([("bus", out_path)], [Event.cmd command])

/-- Embeds `bustools_sort`: runs `bustools sort`. -/
def bustools_sort (env : Env) (bus_path out_path : String)
    (temp_dir : String := "tmp") (threads : Nat := 8) (memory : String := "4G")
    (flags : Bool := false) : Dict × Trace :=
  let command : List Arg :=
    [Arg.sym env.bustools_path, Arg.lit "sort"]
    ++ [Arg.lit "-o", Arg.path out_path]
    ++ [Arg.lit "-T", Arg.path temp_dir]
    ++ [Arg.lit "-t", Arg.num threads]
    ++ [Arg.lit "-m", Arg.sym memory]
    ++ (if flags then [Arg.lit "--flags"] else [])
    ++ [Arg.path bus_path]
  ([("bus", out_path)], [Event.cmd command])

/-- Embeds `bustools_inspect`: runs `bustools inspect`. -/
def bustools_inspect (env : Env) (bus_path out_path : String)
    (whitelist_path : Option String := none) (ecmap_path : Option String := none) :
    Dict × Trace :=
  let command : List Arg :=
    [Arg.sym env.bustools_path, Arg.lit "inspect"]
    ++ [Arg.lit "-o", Arg.path out_path]
    ++ (match whitelist_path with | some w => [Arg.lit "-w", Arg.path w] | none => [])
    ++ (match ecmap_path with | some e => [Arg.lit "-e", Arg.path e] | none => [])
    ++ [Arg.path bus_path]
  ([("inspect", out_path)], [Event.cmd command])

/-- Embeds `bustools_correct`: runs `bustools correct`. -/
def bustools_correct (env : Env) (bus_path out_path whitelist_path : String) :
    Dict × Trace :=
  let command : List Arg :=
    [Arg.sym env.bustools_path, Arg.lit "correct"]
    ++ [Arg.lit "-o", Arg.path out_path]
    ++ [Arg.lit "-w", Arg.path whitelist_path]
    ++ [Arg.path bus_path]
  ([("bus", out_path)], [Event.cmd command])

/-- Embeds `bustools_count`: runs `bustools count`. -/
def bustools_count (env : Env) (bus_path out_pref t2g_path ecmap_path txnames_path : String)
    (tcc : Bool := false) (mm : Bool := false) (cm : Bool := false)
    (umi_gene : Bool := false) (em : Bool := false) : Dict × Trace :=
  let command : List Arg :=
    [Arg.sym env.bustools_path, Arg.lit "count"]
    ++ [Arg.lit "-o", Arg.path out_pref]
    ++ [Arg.lit "-g", Arg.path t2g_path]
    ++ [Arg.lit "-e", Arg.path ecmap_path]
    ++ [Arg.lit "-t", Arg.path txnames_path]
    ++ (if !tcc then [Arg.lit "--genecounts"] else [])
    ++ (if mm then [Arg.lit "--multimapping"] else [])
    ++ (if cm then [Arg.lit "--cm"] else [])
    ++ (if umi_gene then [Arg.lit "--umi-gene"] else [])
    ++ (if em then [Arg.lit "--em"] else [])
    ++ [Arg.path bus_path]
  ([("mtx", out_pref ++ ".mtx"),
    (if tcc then "ec" else "genes",
     if tcc then out_pref ++ ".ec.txt" else out_pref ++ ".genes.txt"),
    ("barcodes", out_pref ++ ".barcodes.txt")],
   [Event.cmd command])

/-- Embeds `bustools_capture`: runs `bustools capture`. -/
def bustools_capture (env : Env) (bus_path out_path capture_path : String)
    (ecmap_path : Option String := none) (txnames_path : Option String := none)
    (capture_type : String := "transcripts") (complement : Bool := true) :
    Dict × Trace :=
  let command : List Arg :=
    [Arg.sym env.bustools_path, Arg.lit "capture"]
    ++ [Arg.lit "-o", Arg.path out_path]
    ++ [Arg.lit "-c", Arg.path capture_path]
    ++ (match ecmap_path with | some e => [Arg.lit "-e", Arg.path e] | none => [])
    ++ (match txnames_path with | some t => [Arg.lit "-t", Arg.path t] | none => [])
    ++ (if complement then [Arg.lit "--complement"] else [])
    ++ [Arg.lit ("--" ++ capture_type)]
    ++ [Arg.path bus_path]
  ([("bus", out_path)], [Event.cmd command])

/-- Embeds `bustools_whitelist`: runs `bustools whitelist`. -/
def bustools_whitelist (env : Env) (bus_path out_path : String)
    (threshold : Option Nat := none) : Dict × Trace :=
  let command : List Arg :=
    [Arg.sym env.bustools_path, Arg.lit "whitelist"]
    ++ [Arg.lit "-o", Arg.path out_path]
    ++ (match threshold with | some t => [Arg.lit "--threshold", Arg.num t] | none => [])
    ++ [Arg.path bus_path]
  ([("whitelist", out_path)], [Event.cmd command])

/-! ## File-level operations (`count.py`) -/

/-- Embeds `write_smartseq_batch`: writes the 3-column batch TSV.
Cell ids are rendered to strings (python writes ints via f-string). -/
def write_smartseq_batch (fastq_pairs : List (String × String))
    (cell_ids : List String) (out_path : String) : Dict × Trace :=
  let lines := (cell_ids.zip fastq_pairs).map
    (fun p => p.1 ++ "\t" ++ p.2.1 ++ "\t" ++ p.2.2)
  ([("batch", out_path)], [Event.write out_path lines])

/-- Embeds `matrix_to_cellranger`: converts a count matrix to the
cellranger layout by reading and rewriting the matrix, barcode and gene
files directly (the sparse-matrix transpose performed by `scipy` is
abstracted: the written matrix content is modelled as the input lines). -/
def matrix_to_cellranger (o : Oracle)
    (matrix_path barcodes_path genes_path t2g_path out_dir : String) :
    Dict × Trace :=
  let cr_matrix_path := joinPath out_dir CELLRANGER_MATRIX
  let cr_barcodes_path := joinPath out_dir CELLRANGER_BARCODES
  let cr_genes_path := joinPath out_dir CELLRANGER_GENES
  let mtxLines := o matrix_path
  let barcodesOut := ((o barcodes_path).filter (fun l => !pyIsSpace l)).map
    (fun l => l.trim ++ "-1")
  let gene_to_name : Dict := (o t2g_path).foldl
    (fun m line =>
      if pyIsSpace line then m
      else
        match line.trim.splitOn "\t" with
        | _ :: g :: nm :: _ => dset m g nm
        | _ => m) []
  let genesOut := ((o genes_path).filter (fun l => !pyIsSpace l)).map
    (fun l =>
      let gene := l.trim
      gene ++ "\t" ++ (dget gene_to_name gene).getD gene)
  ([("mtx", cr_matrix_path), ("barcodes", cr_barcodes_path), ("genes", cr_genes_path)],
   [Event.read matrix_path, Event.write cr_matrix_path mtxLines,
    Event.read barcodes_path, Event.write cr_barcodes_path barcodesOut,
    Event.read t2g_path,
    Event.read genes_path, Event.write cr_genes_path genesOut])

/-- Embeds `convert_matrix`: conversion of a matrix to loom/h5ad.  The
matrix algebra is delegated to the anndata/scipy libraries (out of scope);
only the file accesses are recorded, with abstract (empty) written
content. -/
def convert_matrix (counts_dir matrix_path barcodes_path : String)
    (loom : Bool := false) (h5ad : Bool := false) : Dict × Trace :=
  let loom_path := joinPath counts_dir (ADATA_PREF ++ ".loom")
  let h5ad_path := joinPath counts_dir (ADATA_PREF ++ ".h5ad")
  ((if loom then [("loom", loom_path)] else [])
    ++ (if h5ad then [("h5ad", h5ad_path)] else []),
   [Event.read matrix_path, Event.read barcodes_path]
   ++ (if loom then [Event.write loom_path []] else [])
   ++ (if h5ad then [Event.write h5ad_path []] else []))

/-- Embeds `convert_matrices`: conversion of several matrices to a single
loom/h5ad.  As for `convert_matrix`, the matrix algebra itself is out of
scope; the file accesses are recorded. -/
def convert_matrices (counts_dir : String) (matrix_paths barcodes_paths : List String)
    (loom : Bool := false) (h5ad : Bool := false) : Dict × Trace :=
  let loom_path := joinPath counts_dir (ADATA_PREF ++ ".loom")
  let h5ad_path := joinPath counts_dir (ADATA_PREF ++ ".h5ad")
  ((if loom then [("loom", loom_path)] else [])
    ++ (if h5ad then [("h5ad", h5ad_path)] else []),
   matrix_paths.map Event.read ++ barcodes_paths.map Event.read
   ++ (if loom then [Event.write loom_path []] else [])
   ++ (if h5ad then [Event.write h5ad_path []] else []))

/-- Modelled from the spec: `report.render_report` (`report.py`, not among
the analysed sources) renders the HTML report from already-computed
artifacts; it runs no external pipeline binary and returns the notebook
and HTML paths. -/
def render_report (nb_path html_path : String) : Dict × Trace :=
  ([("report_notebook", nb_path), ("report_html", html_path)], [])

/-- Embeds `stream_fastqs`: substitutes every remote FASTQ path by the
local path it would be streamed to.  (Modelled from the spec:
`utils.stream_file`, not among the analysed sources, downloads a remote
file to the given local path and returns that path.) -/
def stream_fastqs (fastqs : List String) (temp_dir : String := "tmp") : List String :=
  fastqs.map fun fq =>
    if ["http", "https", "ftp", "ftps"].contains (urlscheme fq)
    then joinPath temp_dir (basename fq) else fq

/-- The temporary filename produced by the n-th call of
`utils.get_temporary_filename` (modelled from the spec: the helper, not
among the analysed sources, creates a fresh temporary file in the given
directory and returns its path). -/
def tmpFile (temp_dir : String) (n : Nat) : String :=
  joinPath temp_dir ("tmp" ++ toString n)

/-- Embeds `stream_batch`: reads the batch file, streams the remote FASTQs
named on each non-blank, non-comment line, and writes a new batch file at
a temporary path.  Note the inner `stream_fastqs` call uses its default
`temp_dir='tmp'`, exactly as the source does. -/
def stream_batch (o : Oracle) (batch_path : String) (temp_dir : String := "tmp")
    (n0 : Nat := 0) : String × Trace :=
  let new_batch_path := tmpFile temp_dir n0
  let outLines := (o batch_path).foldl
    (fun acc line =>
      if pyIsSpace line || line.startsWith "#" then acc
      else
        let sep := if line.contains '\t' then "\t" else " "
        let split := line.trim.splitOn sep
        let name := split.headD ""
        let fqs := stream_fastqs split.tail
        acc ++ [name ++ "\t" ++ String.intercalate "\t" fqs]) []
  (new_batch_path, [Event.read batch_path, Event.write new_batch_path outLines])

/-- Embeds `copy_or_create_whitelist`: copies the pre-packaged whitelist
when one is provided for the technology, otherwise generates one with
`bustools whitelist` into `out_dir`. -/
def copy_or_create_whitelist (env : Env) (technology bus_path out_dir : String) :
    String × Trace :=
  if env.whitelist_provided technology then
    (env.copy_whitelist technology out_dir, [])
  else
    let r := bustools_whitelist env bus_path (joinPath out_dir WHITELIST_FILENAME) none
    (dgetD r.1 "whitelist", r.2)

/-- The line transformation of `convert_transcripts_to_genes`: the first
attribute of the stripped transcript's t2g entry when that entry is a
non-empty tuple (python truthiness), the stripped transcript otherwise. -/
def t2gLine (tg : String → Option (List String)) (line : String) : String :=
  match tg line.trim with
  | some (a :: _) => a
  | _ => line.trim

/-- Embeds `convert_transcripts_to_genes`: reads the transcripts file line
by line and writes, for each non-blank line, either the first attribute of
the transcript's t2g entry or the (stripped) transcript itself. -/
def convert_transcripts_to_genes (env : Env) (o : Oracle)
    (txnames_path t2g_path genes_path : String) : String × Trace :=
  let t2g := env.t2g t2g_path
  let outLines := (o txnames_path).foldl
    (fun acc line =>
      if pyIsSpace line then acc
      else acc ++ [t2gLine t2g line]) []
  (genes_path,
   [Event.read txnames_path, Event.read t2g_path, Event.write genes_path outLines])

/-- Embeds `write_smartseq3_capture`: writes the 32-T capture sequence. -/
def write_smartseq3_capture (capture_path : String) : String × Trace :=
  (capture_path, [Event.write capture_path [String.mk (List.replicate 32 'T')]])

/-- Embeds `filter_with_bustools`: whitelist → correct → sort, then
optionally count, convert and cellranger-export. -/
def filter_with_bustools (env : Env) (o : Oracle)
    (bus_path ecmap_path txnames_path t2g_path whitelist_path filtered_bus_path : String)
    (filter_threshold : Option Nat := none) (counts_pref : String := "")
    (tcc : Bool := false) (mm : Bool := false) (kite : Bool := false)
    (temp_dir : String := "tmp") (threads : Nat := 8) (memory : String := "4G")
    (count : Bool := true) (loom : Bool := false) (h5ad : Bool := false)
    (cellranger : Bool := false) (umi_gene : Bool := false) (em : Bool := false) :
    RMap × Trace :=
  let whitelist_result := bustools_whitelist env bus_path whitelist_path filter_threshold
  let correct_result := bustools_correct env bus_path
    (joinPath temp_dir (env.update_filename (basename bus_path) CORRECT_CODE))
    (dgetD whitelist_result.1 "whitelist")
  let sort_result := bustools_sort env (dgetD correct_result.1 "bus")
    filtered_bus_path temp_dir threads memory false
  let results : RMap := rupd [] whitelist_result.1
  let results := rset results "bus_scs" (RVal.s (dgetD sort_result.1 "bus"))
  let countPart : RMap × Trace :=
    if count then
      let counts_dir := dirname counts_pref
      let count_result := bustools_count env (dgetD sort_result.1 "bus")
        counts_pref t2g_path ecmap_path txnames_path tcc mm false umi_gene em
      let conv : Dict × Trace :=
        if loom || h5ad then
          convert_matrix counts_dir (dgetD count_result.1 "mtx")
            (dgetD count_result.1 "barcodes") loom h5ad
        else ([], [])
      let cr : RMap × Trace :=
        if cellranger && !tcc then
          let c := matrix_to_cellranger o (dgetD count_result.1 "mtx")
            (dgetD count_result.1 "barcodes") (dgetD count_result.1 "genes")
            t2g_path (joinPath counts_dir CELLRANGER_DIR)
          ([("cellranger", RVal.d (c.1.map (fun kv => (kv.1, RVal.s kv.2))))], c.2)
        else ([], [])
      (rupd [] count_result.1 ++ rupd [] conv.1 ++ cr.1,
       count_result.2 ++ conv.2 ++ cr.2)
    else ([], [])
  (results ++ countPart.1,
   whitelist_result.2 ++ correct_result.2 ++ sort_result.2 ++ countPart.2)

/-! ## `kallisto_bus_split` -/

/-- `os.path.join(temp_dir, f'bus_part{i}')`. -/
def busPartDir (temp_dir : String) (i : Nat) : String :=
  joinPath temp_dir ("bus_part" ++ toString i)

/-- Accumulator state of the per-index loop of `kallisto_bus_split`:
collected part directories, the (re-)streamed fastq list, the temporary
file counter and the trace so far. -/
structure SplitSt where
  dirs : List String
  fastqs : List String
  n : Nat
  tr : Trace

/-- One iteration of the per-index loop of `kallisto_bus_split`: stream
the fastqs, run `kallisto bus` with `--num` and `--kmer` into the part
directory, sort the part's BUS file by flag to a temporary file and move
it back over the part's `output.bus`. -/
def splitStep (env : Env) (technology temp_dir : String) (threads : Nat)
    (memory : String) (paired : Bool) (strand : Option String)
    (st : SplitSt) (p : Nat × String) : SplitSt :=
  let bus_part_dir := busPartDir temp_dir p.1
  let fastqs := stream_fastqs st.fastqs temp_dir
  let kb := kallisto_bus env (.files fastqs) p.2 technology bus_part_dir
    threads true true paired strand
  let bus_part := joinPath bus_part_dir BUS_FILENAME
  let tname := tmpFile temp_dir st.n
  let sort_part := bustools_sort env bus_part tname temp_dir threads memory true
  { dirs := st.dirs ++ [bus_part_dir]
    fastqs := fastqs
    n := st.n + 1
    tr := st.tr ++ kb.2 ++ sort_part.2
      ++ [Event.move (dgetD sort_part.1 "bus") bus_part] }

/-- Embeds `kallisto_bus_split`: runs `kallisto bus` once per index shard,
sorts and overwrites each part's BUS output, mashes the parts, sorts and
overwrites the mashed BUS file, merges it, and moves the merged BUS file
and ecmap into the output directory.  Also returns the next temporary-file
counter. -/
def kallisto_bus_split (env : Env) (o : Oracle) (fastqs : List String)
    (index_paths : List String) (technology out_dir : String)
    (temp_dir : String := "tmp") (threads : Nat := 8) (memory : String := "4G")
    (paired : Bool := false) (strand : Option String := none) (n0 : Nat := 0) :
    Dict × Nat × Trace :=
  let loopEnd := index_paths.enum.foldl
    (splitStep env technology temp_dir threads memory paired strand)
    { dirs := [], fastqs := fastqs, n := n0, tr := [] }
  let mash_result := bustools_mash env o loopEnd.dirs out_dir
  let tname := tmpFile temp_dir loopEnd.n
  let sort_result := bustools_sort env (dgetD mash_result.1 "bus") tname
    temp_dir threads memory true
  let merge_result := bustools_merge env (dgetD mash_result.1 "bus") out_dir
    (dgetD mash_result.1 "ecmap") (dgetD mash_result.1 "txnames")
  let bus_path := joinPath out_dir BUS_FILENAME
  let ecmap_path := joinPath out_dir ECMAP_FILENAME
  ([("bus", bus_path),
    ("ecmap", ecmap_path),
    ("txnames", joinPath out_dir TXNAMES_FILENAME),
    ("info", joinPath out_dir KALLISTO_INFO_FILENAME)],
   loopEnd.n + 1,
   loopEnd.tr ++ mash_result.2 ++ sort_result.2
   ++ [Event.move (dgetD sort_result.1 "bus") (dgetD mash_result.1 "bus")]
   ++ merge_result.2
   ++ [Event.move (dgetD merge_result.1 "bus") bus_path,
       Event.move (dgetD merge_result.1 "ecmap") ecmap_path])

/-! ## Orchestrators -/

/-- The keyword arguments of `count` (python defaults included). -/
structure CountArgs where
  index_paths : List String
  t2g_path : String
  technology : String
  out_dir : String
  fastqs : Fastqs
  whitelist_path : Option String := none
  tcc : Bool := false
  mm : Bool := false
  filter : Option String := none
  filter_threshold : Option Nat := none
  kite : Bool := false
  FB : Bool := false
  temp_dir : String := "tmp"
  threads : Nat := 8
  memory : String := "4G"
  overwrite : Bool := false
  loom : Bool := false
  h5ad : Bool := false
  cellranger : Bool := false
  inspect : Bool := true
  report : Bool := false
  fragment_l : Option Nat := none
  fragment_s : Option Nat := none
  paired : Bool := false
  strand : Option String := none
  umi_gene : Bool := false
  em : Bool := false

/-- The `if filter == 'bustools'` block of `count`: runs
`filter_with_bustools` on the sorted-corrected-sorted BUS file when the
bustools filter is requested, and does nothing otherwise. -/
def countFilterPart (env : Env) (o : Oracle) (a : CountArgs)
    (corrBus ecmap txnames : String) : RMap × Trace :=
  if a.filter == some "bustools" then
    let filtered_counts_pref := joinPath (joinPath a.out_dir FILTERED_COUNTS_DIR)
      (if a.tcc then TCC_PREF else if a.kite then FEATURE_PREF else COUNTS_PREF)
    filter_with_bustools env o corrBus ecmap txnames a.t2g_path
      (joinPath a.out_dir FILTER_WHITELIST_FILENAME)
      (joinPath a.out_dir ("output." ++ FILTERED_CODE ++ ".bus"))
      a.filter_threshold filtered_counts_pref a.tcc false a.kite
      a.temp_dir a.threads a.memory true a.loom a.h5ad false a.umi_gene a.em
  else ([], [])

/-- The `technology` string actually passed to `kallisto bus` by `count`:
`SMARTSEQ2` is substituted by `BULK`. -/
def countTechSub (technology : String) : String :=
  if technology.toUpper == "SMARTSEQ2" then "BULK" else technology

/-- The preset `kallisto bus` output dictionary of `count`. -/
def countBus0 (a : CountArgs) : Dict :=
  [("bus", joinPath a.out_dir BUS_FILENAME),
   ("ecmap", joinPath a.out_dir ECMAP_FILENAME),
   ("txnames", joinPath a.out_dir TXNAMES_FILENAME),
   ("info", joinPath a.out_dir KALLISTO_INFO_FILENAME)]
  ++ (if isCmTech a.technology
      then [("saved_index", joinPath a.out_dir SAVED_INDEX_FILENAME)] else [])

/-- Whether `count` (re-)runs `kallisto bus`: some preset output path does
not exist, or `overwrite` was requested. -/
def countRunBus (env : Env) (a : CountArgs) : Bool :=
  (countBus0 a).any (fun kv => !env.exists_path kv.2) || a.overwrite

/-- The `kallisto bus` stage of `count`: the preset output dictionary, the
existence check, and the split / batch / plain invocation branches. -/
def countBusPart (env : Env) (o : Oracle) (a : CountArgs) : Dict × Trace :=
  let bus0 : Dict := countBus0 a
  let techSub := countTechSub a.technology
  if countRunBus env a then
    if a.index_paths.length > 1 then
      let r := kallisto_bus_split env o a.fastqs.asList a.index_paths techSub
        a.out_dir a.temp_dir a.threads a.memory a.paired a.strand 0
      (r.1, r.2.2)
    else
      if a.fastqs.isBatch then
        let sb := stream_batch o a.fastqs.batchPath a.temp_dir 0
        let kb := kallisto_bus env (.batchFile sb.1) (a.index_paths.headD "")
          techSub a.out_dir a.threads false false a.paired a.strand
        (kb.1, sb.2 ++ kb.2)
      else
        let fq := stream_fastqs a.fastqs.asList a.temp_dir
        kallisto_bus env (.files fq) (a.index_paths.headD "") techSub a.out_dir
          a.threads false false a.paired a.strand
  else (bus0, [])

/-- Embeds `count`: the main single-cell count-matrix pipeline.
`STATS` bookkeeping and logging are out of scope and not modelled. -/
def count (env : Env) (o : Oracle) (a : CountArgs) : RMap × Trace :=
  let is_batch := a.fastqs.isBatch
  let busPart : Dict × Trace := countBusPart env o a
  let bus_result := busPart.1
  let u : RMap := rupd [] bus_result
  let sort_result := bustools_sort env (dgetD bus_result "bus")
    (joinPath a.temp_dir
      (env.update_filename (basename (dgetD bus_result "bus")) SORT_CODE))
    a.temp_dir a.threads a.memory false
  let genWl := a.whitelist_path.isNone && !is_batch
  let wlPart : Option String × Trace :=
    if genWl then
      let w := copy_or_create_whitelist env a.technology (dgetD sort_result.1 "bus")
        a.out_dir
      (some w.1, w.2)
    else (a.whitelist_path, [])
  let wlOpt := wlPart.1
  let u := if genWl then rset u "whitelist" (RVal.s (wlOpt.getD "")) else u
  let fbPart : Dict × Trace :=
    if a.FB then
      let map_path := env.copy_map a.technology a.out_dir
      let project_result := bustools_project env (dgetD sort_result.1 "bus")
        (joinPath a.temp_dir
          (env.update_filename (basename (dgetD sort_result.1 "bus")) PROJECT_CODE))
        map_path (dgetD bus_result "ecmap") (dgetD bus_result "txnames")
      let sort2_result := bustools_sort env (dgetD project_result.1 "bus")
        (joinPath a.temp_dir
          (env.update_filename (basename (dgetD project_result.1 "bus")) SORT_CODE))
        a.temp_dir a.threads a.memory false
      (sort2_result.1, project_result.2 ++ sort2_result.2)
    else (sort_result.1, [])
  let prevBus := dgetD fbPart.1 "bus"
  let inspPart : Dict × Trace :=
    if a.inspect then
      bustools_inspect env prevBus (joinPath a.out_dir INSPECT_FILENAME) wlOpt none
    else ([], [])
  let u := if a.inspect then rupd u inspPart.1 else u
  let corrPart : String × Trace :=
    if !is_batch then
      let correct_result := bustools_correct env prevBus
        (joinPath a.temp_dir (env.update_filename (basename prevBus) CORRECT_CODE))
        (wlOpt.getD "")
      let sortc := bustools_sort env (dgetD correct_result.1 "bus")
        (joinPath a.out_dir ("output." ++ UNFILTERED_CODE ++ ".bus"))
        a.temp_dir a.threads a.memory false
      (dgetD sortc.1 "bus", correct_result.2 ++ sortc.2)
    else (prevBus, [])
  let u := if !is_batch then rset u "bus_scs" (RVal.s corrPart.1) else u
  let counts_dir := joinPath a.out_dir UNFILTERED_COUNTS_DIR
  let counts_pref := joinPath counts_dir
    (if a.tcc then TCC_PREF else if a.kite then FEATURE_PREF else COUNTS_PREF)
  let cm := isCmTech a.technology
  let quant := cm && a.tcc
  let count_result := bustools_count env corrPart.1 counts_pref a.t2g_path
    (dgetD bus_result "ecmap") (dgetD bus_result "txnames")
    a.tcc (a.mm || a.tcc) cm a.umi_gene a.em
  let u := rupd u count_result.1
  let quant_dir := joinPath a.out_dir UNFILTERED_QUANT_DIR
  let quantPart : Dict × Trace :=
    if quant then
      kallisto_quant_tcc env (dgetD count_result.1 "mtx")
        (dgetD bus_result "saved_index") (dgetD bus_result "ecmap") a.t2g_path
        quant_dir (dget bus_result "flens") a.fragment_l a.fragment_s a.threads
    else ([], [])
  let u := if quant then rupd u quantPart.1 else u
  let convPart : Dict × Trace :=
    if a.loom || a.h5ad then
      let result := if quant then quantPart.1 else count_result.1
      convert_matrix (if quant then quant_dir else counts_dir)
        (dgetD result "mtx") (dgetD count_result.1 "barcodes") a.loom a.h5ad
    else ([], [])
  let u := if a.loom || a.h5ad then rupd u convPart.1 else u
  let crPart : RMap × Trace :=
    if a.cellranger then
      let c := matrix_to_cellranger o (dgetD count_result.1 "mtx")
        (dgetD count_result.1 "barcodes") (dgetD count_result.1 "genes")
        a.t2g_path (joinPath counts_dir CELLRANGER_DIR)
      ([("cellranger", RVal.d (c.1.map (fun kv => (kv.1, RVal.s kv.2))))], c.2)
    else ([], [])
  let u := u ++ crPart.1
  let filtPart : RMap × Trace := countFilterPart env o a corrPart.1
    (dgetD bus_result "ecmap") (dgetD bus_result "txnames")
  let stats_path := joinPath a.out_dir KB_INFO_FILENAME
  let u := if a.report then
      rupd u (render_report (joinPath a.out_dir REPORT_NOTEBOOK_FILENAME)
        (joinPath a.out_dir REPORT_HTML_FILENAME)).1
    else u
  ([("unfiltered", RVal.d u)]
   ++ (if a.filter == some "bustools" then [("filtered", RVal.d filtPart.1)] else [])
   ++ [("stats", RVal.s stats_path)],
   busPart.2 ++ sort_result.2 ++ wlPart.2 ++ fbPart.2 ++ inspPart.2 ++ corrPart.2
   ++ count_result.2 ++ quantPart.2 ++ convPart.2 ++ crPart.2 ++ filtPart.2)

/-- The keyword arguments of `count_smartseq3`. -/
structure Ss3Args where
  index_paths : List String
  t2g_path : String
  out_dir : String
  fastqs : Fastqs
  tcc : Bool := false
  mm : Bool := false
  temp_dir : String := "tmp"
  threads : Nat := 8
  memory : String := "4G"
  overwrite : Bool := false
  loom : Bool := false
  h5ad : Bool := false
  inspect : Bool := true
  strand : Option String := none

/-- Appends a suffix to every key of a path dictionary
(`{f+suffix: value for f, value in d.items()}`). -/
def suffixKeys (m : Dict) (suf : String) : Dict :=
  m.map (fun kv => (kv.1 ++ suf, kv.2))

/-- The preset `kallisto bus` output dictionary of `count_smartseq3`. -/
def ss3Bus0 (a : Ss3Args) : Dict :=
  [("bus", joinPath a.out_dir BUS_FILENAME),
   ("ecmap", joinPath a.out_dir ECMAP_FILENAME),
   ("txnames", joinPath a.out_dir TXNAMES_FILENAME),
   ("info", joinPath a.out_dir KALLISTO_INFO_FILENAME),
   ("flens", joinPath a.out_dir FLENS_FILENAME),
   ("saved_index", joinPath a.out_dir SAVED_INDEX_FILENAME)]

/-- Whether `count_smartseq3` (re-)runs `kallisto bus`. -/
def ss3RunBus (env : Env) (a : Ss3Args) : Bool :=
  (ss3Bus0 a).any (fun kv => !env.exists_path kv.2) || a.overwrite

/-- The `kallisto bus` stage of `count_smartseq3`. -/
def ss3BusPart (env : Env) (o : Oracle) (a : Ss3Args) : Dict × Trace :=
  let bus0 : Dict := ss3Bus0 a
  if ss3RunBus env a then
    if a.index_paths.length > 1 then
      let r := kallisto_bus_split env o a.fastqs.asList a.index_paths "SMARTSEQ3"
        a.out_dir a.temp_dir a.threads a.memory true a.strand 0
      (r.1, r.2.2)
    else
      if a.fastqs.isBatch then
        let sb := stream_batch o a.fastqs.batchPath a.temp_dir 0
        let kb := kallisto_bus env (.batchFile sb.1) (a.index_paths.headD "")
          "SMARTSEQ3" a.out_dir a.threads false false true a.strand
        (kb.1, sb.2 ++ kb.2)
      else
        let fq := stream_fastqs a.fastqs.asList a.temp_dir
        kallisto_bus env (.files fq) (a.index_paths.headD "") "SMARTSEQ3"
          a.out_dir a.threads false false true a.strand
  else (bus0, [])

/-- Embeds `count_smartseq3`: the Smart-seq3 pipeline. -/
def count_smartseq3 (env : Env) (o : Oracle) (a : Ss3Args) : RMap × Trace :=
  let busPart : Dict × Trace := ss3BusPart env o a
  let bus_result := busPart.1
  let u : RMap := rupd [] bus_result
  let sort_result := bustools_sort env (dgetD bus_result "bus")
    (joinPath a.temp_dir
      (env.update_filename (basename (dgetD bus_result "bus")) SORT_CODE))
    a.temp_dir a.threads a.memory false
  let wl := copy_or_create_whitelist env "SMARTSEQ3" (dgetD sort_result.1 "bus")
    a.out_dir
  let u := rset u "whitelist" (RVal.s wl.1)
  let inspPart : Dict × Trace :=
    if a.inspect then
      bustools_inspect env (dgetD sort_result.1 "bus")
        (joinPath a.out_dir INSPECT_FILENAME) (some wl.1) none
    else ([], [])
  let u := if a.inspect then rupd u inspPart.1 else u
  let correct_result := bustools_correct env (dgetD sort_result.1 "bus")
    (joinPath a.temp_dir
      (env.update_filename (basename (dgetD sort_result.1 "bus")) CORRECT_CODE))
    wl.1
  let sortc := bustools_sort env (dgetD correct_result.1 "bus")
    (joinPath a.out_dir ("output." ++ UNFILTERED_CODE ++ ".bus"))
    a.temp_dir a.threads a.memory false
  let scsBus := dgetD sortc.1 "bus"
  let u := rset u "bus_scs" (RVal.s scsBus)
  let cap := write_smartseq3_capture (joinPath a.out_dir CAPTURE_FILENAME)
  let capture_internal := bustools_capture env scsBus
    (joinPath a.out_dir ("output" ++ INTERNAL_SUFFIX ++ ".bus")) cap.1
    none none "umis" false
  let u := rset u ("bus" ++ INTERNAL_SUFFIX)
    (RVal.s (dgetD capture_internal.1 "bus"))
  let capture_umi := bustools_capture env scsBus
    (joinPath a.out_dir ("output" ++ UMI_SUFFIX ++ ".bus")) cap.1
    none none "umis" true
  let u := rset u ("bus" ++ UMI_SUFFIX) (RVal.s (dgetD capture_umi.1 "bus"))
  let counts_internal_dir := joinPath a.out_dir (UNFILTERED_COUNTS_DIR ++ INTERNAL_SUFFIX)
  let counts_internal_pref := joinPath counts_internal_dir
    (if a.tcc then TCC_PREF else COUNTS_PREF)
  let count_internal := bustools_count env (dgetD capture_internal.1 "bus")
    counts_internal_pref a.t2g_path (dgetD bus_result "ecmap")
    (dgetD bus_result "txnames") a.tcc (a.mm || a.tcc) true false false
  let u := rupd u (suffixKeys count_internal.1 INTERNAL_SUFFIX)
  let counts_umi_dir := joinPath a.out_dir (UNFILTERED_COUNTS_DIR ++ UMI_SUFFIX)
  let counts_umi_pref := joinPath counts_umi_dir
    (if a.tcc then TCC_PREF else COUNTS_PREF)
  let count_umi := bustools_count env (dgetD capture_umi.1 "bus")
    counts_umi_pref a.t2g_path (dgetD bus_result "ecmap")
    (dgetD bus_result "txnames") a.tcc (a.mm || a.tcc) false true false
  let u := rupd u (suffixKeys count_umi.1 UMI_SUFFIX)
  let quant_internal_dir := joinPath a.out_dir (UNFILTERED_QUANT_DIR ++ INTERNAL_SUFFIX)
  let quant_umi_dir := joinPath a.out_dir (UNFILTERED_QUANT_DIR ++ UMI_SUFFIX)
  let quantPart : Dict × Dict × Trace :=
    if a.tcc then
      let qi := kallisto_quant_tcc env (dgetD count_internal.1 "mtx")
        (dgetD bus_result "saved_index") (dgetD bus_result "ecmap") a.t2g_path
        quant_internal_dir (some (dgetD bus_result "flens")) none none a.threads
      let qu := kallisto_quant_tcc env (dgetD count_umi.1 "mtx")
        (dgetD bus_result "saved_index") (dgetD bus_result "ecmap") a.t2g_path
        quant_umi_dir none none none a.threads
      (qi.1, qu.1, qi.2 ++ qu.2)
    else ([], [], [])
  let u := if a.tcc then
      rupd (rupd u (suffixKeys quantPart.1 INTERNAL_SUFFIX))
        (suffixKeys quantPart.2.1 UMI_SUFFIX)
    else u
  let convPart : Dict × Dict × Trace :=
    if a.loom || a.h5ad then
      let ri := if a.tcc then quantPart.1 else count_internal.1
      let ci := convert_matrix (if a.tcc then quant_internal_dir else counts_internal_dir)
        (dgetD ri "mtx") (dgetD count_internal.1 "barcodes") a.loom a.h5ad
      let ru := if a.tcc then quantPart.2.1 else count_umi.1
      let cu := convert_matrix (if a.tcc then quant_umi_dir else counts_umi_dir)
        (dgetD ru "mtx") (dgetD count_umi.1 "barcodes") a.loom a.h5ad
      (ci.1, cu.1, ci.2 ++ cu.2)
    else ([], [], [])
  let u := if a.loom || a.h5ad then
      rupd (rupd u (suffixKeys convPart.1 INTERNAL_SUFFIX))
        (suffixKeys convPart.2.1 UMI_SUFFIX)
    else u
  let stats_path := joinPath a.out_dir KB_INFO_FILENAME
  ([("unfiltered", RVal.d u), ("stats", RVal.s stats_path)],
   busPart.2 ++ sort_result.2 ++ wl.2 ++ inspPart.2 ++ correct_result.2 ++ sortc.2
   ++ cap.2 ++ capture_internal.2 ++ capture_umi.2 ++ count_internal.2
   ++ count_umi.2 ++ quantPart.2.2 ++ convPart.2.2)

/-- Lookup in a nested result dictionary. -/
def rget : RMap → String → Option RVal
  | [], _ => none
  | kv :: r, k => if kv.1 == k then some kv.2 else rget r k

/-- Lookup of a nested sub-dictionary (`[]` when absent or a string). -/
def rgetd (m : RMap) (k : String) : RMap :=
  match rget m k with
  | some (.d m2) => m2
  | _ => []

/-- Lookup of a string value (`""` when absent or a dict). -/
def rgetS (m : RMap) (k : String) : String :=
  match rget m k with
  | some (.s v) => v
  | _ => ""

/-- `outer[k1].update(inner)`: merge entries into the nested dictionary
stored under `k1`. -/
def rmergeAt (u : RMap) (k1 : String) (inner : RMap) : RMap :=
  inner.foldl (fun acc kv => rset acc k1 (RVal.d (rset (rgetd acc k1) kv.1 kv.2))) u

/-- The keyword arguments of `count_smartseq`. -/
structure SsArgs where
  index_paths : List String
  t2g_path : String
  technology : String
  out_dir : String
  fastq_pairs : List (String × String)
  cell_ids : Option (List String) := none
  temp_dir : String := "tmp"
  threads : Nat := 8
  memory : String := "4G"
  overwrite : Bool := false
  loom : Bool := false
  h5ad : Bool := false

/-- Outcome of `count_smartseq`: either a result dictionary or a raised
exception (with its message). -/
inductive SsOutcome where
  | ok (r : RMap)
  | err (msg : String)

/-- Whether the outcome is a normal return. -/
def SsOutcome.isOk : SsOutcome → Bool
  | .ok _ => true
  | .err _ => false

/-- Embeds `count_smartseq`: the plate-based Smart-seq pipeline built on
`kallisto pseudo`.  Raises (returns `.err`) on multiple indices and on
remote FASTQs, before anything else happens. -/
def count_smartseq (env : Env) (o : Oracle) (a : SsArgs) : SsOutcome × Trace :=
  if a.index_paths.length > 1 then
    (.err ("Technology " ++ a.technology ++ " does not support multiple indices."), [])
  else if a.fastq_pairs.any (fun pr =>
      ["http", "https", "ftp", "ftps"].contains (urlscheme pr.1)
      || ["http", "https", "ftp", "ftps"].contains (urlscheme pr.2)) then
    (.err ("Technology " ++ a.technology ++ " does not support FASTQ streaming."), [])
  else
    let pseudo0 : Dict :=
      [("mtx", joinPath a.out_dir ABUNDANCE_FILENAME),
       ("ecmap", joinPath a.out_dir ECMAP_FILENAME),
       ("cells", joinPath a.out_dir CELLS_FILENAME),
       ("txnames", joinPath a.out_dir TXNAMES_FILENAME),
       ("info", joinPath a.out_dir KALLISTO_INFO_FILENAME)]
    let runPseudo := pseudo0.any (fun kv => !env.exists_path kv.2) || a.overwrite
    let runPart : RMap × Dict × Trace :=
      if runPseudo then
        let cell_ids := match a.cell_ids with
          | some ids => ids
          | none => (List.range a.fastq_pairs.length).map toString
        let batch_result := write_smartseq_batch a.fastq_pairs cell_ids
          (joinPath a.out_dir BATCH_FILENAME)
        let pseudo_result := kallisto_pseudo env (dgetD batch_result.1 "batch")
          (a.index_paths.headD "") a.out_dir a.threads
        (rupd [] batch_result.1, pseudo_result.1, batch_result.2 ++ pseudo_result.2)
      else ([], pseudo0, [])
    let pseudo_result := runPart.2.1
    let results := runPart.1
    let results := rupd results pseudo_result
    let genes := convert_transcripts_to_genes env o (dgetD pseudo_result "txnames")
      a.t2g_path (joinPath a.out_dir GENES_FILENAME)
    let results := rset results "genes" (RVal.s genes.1)
    let convPart : Dict × Trace :=
      if a.loom || a.h5ad then
        convert_matrix a.out_dir (dgetD pseudo_result "mtx")
          (dgetD pseudo_result "cells") a.loom a.h5ad
      else ([], [])
    let results := if a.loom || a.h5ad then rupd results convPart.1 else results
    let stats_path := joinPath a.out_dir KB_INFO_FILENAME
    let results := rset results "stats" (RVal.s stats_path)
    (.ok results, runPart.2.2 ++ genes.2 ++ convPart.2)

/-- The keyword arguments of `count_velocity`. -/
structure VelArgs where
  index_paths : List String
  t2g_path : String
  cdna_t2c_path : String
  intron_t2c_path : String
  technology : String
  out_dir : String
  fastqs : Fastqs
  whitelist_path : Option String := none
  tcc : Bool := false
  mm : Bool := false
  filter : Option String := none
  filter_threshold : Option Nat := none
  temp_dir : String := "tmp"
  threads : Nat := 8
  memory : String := "4G"
  overwrite : Bool := false
  loom : Bool := false
  h5ad : Bool := false
  cellranger : Bool := false
  report : Bool := false
  inspect : Bool := true
  nucleus : Bool := false
  strand : Option String := none
  umi_gene : Bool := false
  em : Bool := false

/-- One iteration of the per-prefix loop of `count_velocity`
(unfiltered): capture against the complementary t2c list, sort, inspect,
count and optionally convert to a cellranger matrix. -/
def velocityPass (env : Env) (o : Oracle) (a : VelArgs) (wlOpt : Option String)
    (scsBus ecmap txnames pfx t2c : String) : RMap × Trace :=
  let capture_result := bustools_capture env scsBus
    (joinPath a.temp_dir (pfx ++ ".bus")) t2c (some ecmap) (some txnames)
    "transcripts" true
  let sort_result := bustools_sort env (dgetD capture_result.1 "bus")
    (joinPath a.out_dir (pfx ++ "." ++ UNFILTERED_CODE ++ ".bus"))
    a.temp_dir a.threads a.memory false
  let m : RMap := rupd [] sort_result.1
  let inspPart : Dict × Trace :=
    if a.inspect then
      bustools_inspect env (dgetD sort_result.1 "bus")
        (joinPath a.out_dir (env.update_filename INSPECT_FILENAME pfx)) wlOpt none
    else ([], [])
  let m := if a.inspect then rupd m inspPart.1 else m
  let counts_dir := joinPath a.out_dir UNFILTERED_COUNTS_DIR
  let count_result := bustools_count env (dgetD sort_result.1 "bus")
    (joinPath counts_dir pfx) a.t2g_path ecmap txnames
    a.tcc (a.mm || a.tcc) false a.umi_gene a.em
  let m := rupd m count_result.1
  let crPart : RMap × Trace :=
    if a.cellranger && !a.tcc then
      let c := matrix_to_cellranger o (dgetD count_result.1 "mtx")
        (dgetD count_result.1 "barcodes") (dgetD count_result.1 "genes")
        a.t2g_path (joinPath counts_dir (CELLRANGER_DIR ++ "_" ++ pfx))
      ([("cellranger", RVal.d (c.1.map (fun kv => (kv.1, RVal.s kv.2))))], c.2)
    else ([], [])
  (m ++ crPart.1,
   capture_result.2 ++ sort_result.2 ++ inspPart.2 ++ count_result.2 ++ crPart.2)

/-- One iteration of the per-prefix loop of the filtered branch of
`count_velocity`.  The second returned dictionary is the cellranger entry
that the source adds to the *unfiltered* prefix dictionary. -/
def velocityFilteredPass (env : Env) (o : Oracle) (a : VelArgs)
    (filtScsBus ecmap txnames pfx t2c : String) : RMap × RMap × Trace :=
  let capture_result := bustools_capture env filtScsBus
    (joinPath a.temp_dir (pfx ++ ".bus")) t2c (some ecmap) (some txnames)
    "transcripts" true
  let sortf := bustools_sort env (dgetD capture_result.1 "bus")
    (joinPath a.out_dir (pfx ++ "." ++ FILTERED_CODE ++ ".bus"))
    a.temp_dir a.threads a.memory false
  let m : RMap := rupd [] sortf.1
  let filtered_counts_dir := joinPath a.out_dir FILTERED_COUNTS_DIR
  let count_result := bustools_count env (dgetD sortf.1 "bus")
    (joinPath filtered_counts_dir pfx) a.t2g_path ecmap txnames
    a.tcc (a.mm || a.tcc) false a.umi_gene a.em
  let m := rupd m count_result.1
  let crPart : RMap × Trace :=
    if a.cellranger && !a.tcc then
      let c := matrix_to_cellranger o (dgetD count_result.1 "mtx")
        (dgetD count_result.1 "barcodes") (dgetD count_result.1 "genes")
        a.t2g_path (joinPath filtered_counts_dir (CELLRANGER_DIR ++ "_" ++ pfx))
      ([("cellranger", RVal.d (c.1.map (fun kv => (kv.1, RVal.s kv.2))))], c.2)
    else ([], [])
  (m, crPart.1,
   capture_result.2 ++ sortf.2 ++ count_result.2 ++ crPart.2)

/-- The `if filter == 'bustools'` branch of `count_velocity`: bustools
filtering with `count=False`, then the per-prefix filtered captures,
sorts and counts, then optional conversion.  Returns the filtered result
dictionary, the cellranger entries destined for the unfiltered prefix
dictionaries, and the trace.  (For a filter value other than
`'bustools'`, the source would raise a `NameError` in the conversion
step; that crash path is not modelled.) -/
def velocityFilterPart (env : Env) (o : Oracle) (a : VelArgs)
    (sort2Bus ecmap txnames : String) : RMap × (RMap × RMap) × Trace :=
  if a.filter == some "bustools" then
    let fw := filter_with_bustools env o sort2Bus ecmap txnames a.t2g_path
      (joinPath a.out_dir FILTER_WHITELIST_FILENAME)
      (joinPath a.out_dir ("output." ++ FILTERED_CODE ++ ".bus"))
      a.filter_threshold "" false false false a.temp_dir 8 a.memory
      false false false false a.umi_gene a.em
    let filtBus := rgetS fw.1 "bus_scs"
    let p1 := velocityFilteredPass env o a filtBus ecmap txnames
      BUS_CDNA_PREF a.intron_t2c_path
    let p2 := velocityFilteredPass env o a filtBus ecmap txnames
      BUS_INTRON_PREF a.cdna_t2c_path
    let f := fw.1 ++ [(BUS_CDNA_PREF, RVal.d p1.1), (BUS_INTRON_PREF, RVal.d p2.1)]
    let convPart : Dict × Trace :=
      if a.loom || a.h5ad then
        convert_matrices (joinPath a.out_dir FILTERED_COUNTS_DIR)
          [rgetS p1.1 "mtx", rgetS p2.1 "mtx"]
          [rgetS p1.1 "barcodes", rgetS p2.1 "barcodes"] a.loom a.h5ad
      else ([], [])
    let f := if a.loom || a.h5ad then rupd f convPart.1 else f
    (f, (p1.2.1, p2.2.1),
     fw.2 ++ p1.2.2 ++ p2.2.2 ++ convPart.2)
  else ([], ([], []), [])

/-- The preset `kallisto bus` output dictionary of `count_velocity`. -/
def velBus0 (a : VelArgs) : Dict :=
  [("bus", joinPath a.out_dir BUS_FILENAME),
   ("ecmap", joinPath a.out_dir ECMAP_FILENAME),
   ("txnames", joinPath a.out_dir TXNAMES_FILENAME),
   ("info", joinPath a.out_dir KALLISTO_INFO_FILENAME)]

/-- Whether `count_velocity` (re-)runs `kallisto bus`. -/
def velRunBus (env : Env) (a : VelArgs) : Bool :=
  (velBus0 a).any (fun kv => !env.exists_path kv.2) || a.overwrite

/-- The `kallisto bus` stage of `count_velocity`. -/
def velBusPart (env : Env) (o : Oracle) (a : VelArgs) : Dict × Trace :=
  let bus0 : Dict := velBus0 a
  if velRunBus env a then
    if a.index_paths.length > 1 then
      let r := kallisto_bus_split env o a.fastqs.asList a.index_paths
        a.technology a.out_dir a.temp_dir a.threads a.memory false a.strand 0
      (r.1, r.2.2)
    else
      let fq := stream_fastqs a.fastqs.asList a.temp_dir
      kallisto_bus env (.files fq) (a.index_paths.headD "") a.technology
        a.out_dir a.threads false false false a.strand
  else (bus0, [])

/-- Embeds `count_velocity`: the RNA-velocity pipeline (two capture
streams, spliced and unspliced). -/
def count_velocity (env : Env) (o : Oracle) (a : VelArgs) : RMap × Trace :=
  let busPart : Dict × Trace := velBusPart env o a
  let bus_result := busPart.1
  let u : RMap := rupd [] bus_result
  let sort_result := bustools_sort env (dgetD bus_result "bus")
    (joinPath a.temp_dir
      (env.update_filename (basename (dgetD bus_result "bus")) SORT_CODE))
    a.temp_dir a.threads a.memory false
  let genWl := a.whitelist_path.isNone
  let wlPart : Option String × Trace :=
    if genWl then
      let w := copy_or_create_whitelist env a.technology (dgetD sort_result.1 "bus")
        a.out_dir
      (some w.1, w.2)
    else (a.whitelist_path, [])
  let wlOpt := wlPart.1
  let u := if genWl then rset u "whitelist" (RVal.s (wlOpt.getD "")) else u
  let inspPart : Dict × Trace :=
    if a.inspect then
      bustools_inspect env (dgetD sort_result.1 "bus")
        (joinPath a.out_dir INSPECT_FILENAME) wlOpt none
    else ([], [])
  let u := if a.inspect then rupd u inspPart.1 else u
  let correct_result := bustools_correct env (dgetD sort_result.1 "bus")
    (joinPath a.temp_dir
      (env.update_filename (basename (dgetD sort_result.1 "bus")) CORRECT_CODE))
    (wlOpt.getD "")
  let sort2_result := bustools_sort env (dgetD correct_result.1 "bus")
    (joinPath a.out_dir ("output." ++ UNFILTERED_CODE ++ ".bus"))
    a.temp_dir a.threads a.memory false
  let sort2Bus := dgetD sort2_result.1 "bus"
  let u := rset u "bus_scs" (RVal.s sort2Bus)
  let ecmap := dgetD bus_result "ecmap"
  let txnames := dgetD bus_result "txnames"
  let p1 := velocityPass env o a wlOpt sort2Bus ecmap txnames
    BUS_CDNA_PREF a.intron_t2c_path
  let u := rset u BUS_CDNA_PREF (RVal.d p1.1)
  let p2 := velocityPass env o a wlOpt sort2Bus ecmap txnames
    BUS_INTRON_PREF a.cdna_t2c_path
  let u := rset u BUS_INTRON_PREF (RVal.d p2.1)
  let convPart : Dict × Trace :=
    if a.loom || a.h5ad then
      convert_matrices (joinPath a.out_dir UNFILTERED_COUNTS_DIR)
        [rgetS p1.1 "mtx", rgetS p2.1 "mtx"]
        [rgetS p1.1 "barcodes", rgetS p2.1 "barcodes"] a.loom a.h5ad
    else ([], [])
  let u := if a.loom || a.h5ad then rupd u convPart.1 else u
  let filtPart := velocityFilterPart env o a sort2Bus ecmap txnames
  let u := rmergeAt u BUS_CDNA_PREF filtPart.2.1.1
  let u := rmergeAt u BUS_INTRON_PREF filtPart.2.1.2
  let stats_path := joinPath a.out_dir KB_INFO_FILENAME
  let u := if a.report then
      rupd u (render_report (joinPath a.out_dir REPORT_NOTEBOOK_FILENAME)
        (joinPath a.out_dir REPORT_HTML_FILENAME)).1
    else u
  let u := if a.report then
      rmergeAt (rmergeAt u BUS_CDNA_PREF
        (rupd [] (render_report
          (joinPath a.out_dir (env.update_filename REPORT_NOTEBOOK_FILENAME BUS_CDNA_PREF))
          (joinPath a.out_dir (env.update_filename REPORT_HTML_FILENAME BUS_CDNA_PREF))).1))
        BUS_INTRON_PREF
        (rupd [] (render_report
          (joinPath a.out_dir (env.update_filename REPORT_NOTEBOOK_FILENAME BUS_INTRON_PREF))
          (joinPath a.out_dir (env.update_filename REPORT_HTML_FILENAME BUS_INTRON_PREF))).1)
    else u
  ([("unfiltered", RVal.d u)]
   ++ (if a.filter.isSome then [("filtered", RVal.d filtPart.1)] else [])
   ++ [("stats", RVal.s stats_path)],
   busPart.2 ++ sort_result.2 ++ wlPart.2 ++ inspPart.2 ++ correct_result.2
   ++ sort2_result.2 ++ p1.2 ++ p2.2 ++ convPart.2 ++ filtPart.2.2)

/-! ## `config.py`: binary-path resolution -/

/-- The parts of the OS interface used by `set_kallisto_binary_path` and
`set_bustools_binary_path`: `shutil.which`, `os.path.isfile`,
`os.path.abspath` and `os.access(·, os.X_OK)`. -/
structure OsEnv where
  which : String → Option String
  isfile : String → Bool
  abspath : String → String
  access_X_OK : String → Bool

/-- The mutable module state of `config.py`: the two binary-path globals. -/
structure Config where
  kallisto_path : Option String
  bustools_path : Option String
deriving DecidableEq, Repr

/-- The exceptions `set_*_binary_path` can raise: the generic
`Exception(f'Unable to resolve path {path}')` and
`NotExecutableException(f'{actual_path} is not executable')`. -/
inductive PathError where
  | unresolved (path : String)
  | notExecutable (actual : String)
deriving DecidableEq, Repr

/-- The resolved absolute path `set_*_binary_path` computes: the
`shutil.which` hit if any, else the file path itself, made absolute. -/
def resolveBinary (os : OsEnv) (path : String) : Option String :=
  match os.which path with
  | some sp => some (os.abspath sp)
  | none => if os.isfile path then some (os.abspath path) else none

/-- Embeds `set_kallisto_binary_path`: returns the new config state and
the raised exception, if any (the state is returned unchanged when an
exception is raised, since the assignment to the global is the last
statement). -/
def set_kallisto_binary_path (os : OsEnv) (path : String) (cfg : Config) :
    Config × Option PathError :=
  match resolveBinary os path with
  | none => (cfg, some (.unresolved path))
  | some actual =>
    if !os.access_X_OK actual then (cfg, some (.notExecutable actual))
    else ({ cfg with kallisto_path := some actual }, none)

/-- Embeds `set_bustools_binary_path` (textually identical to
`set_kallisto_binary_path` but for the `BUSTOOLS_PATH` global). -/
def set_bustools_binary_path (os : OsEnv) (path : String) (cfg : Config) :
    Config × Option PathError :=
  match resolveBinary os path with
  | none => (cfg, some (.unresolved path))
  | some actual =>
    if !os.access_X_OK actual then (cfg, some (.notExecutable actual))
    else ({ cfg with bustools_path := some actual }, none)

/-! ## Trace observations -/

/-- The subcommand of a command event: the second command-line argument,
which is a string literal for every command the source builds. -/
def stageOf : Event → Option String
  | .cmd (_ :: Arg.lit s :: _) => some s
  | _ => none

/-- Whether an event is an invocation of the given subcommand. -/
def isStage (s : String) (e : Event) : Bool := stageOf e == some s

/-- The command lines of a trace. -/
def cmds (t : Trace) : List (List Arg) :=
  t.filterMap fun e =>
    match e with
    | .cmd args => some args
    | _ => none

/-- Whether an event writes file contents. -/
def isWriteEvent : Event → Bool
  | .write _ _ => true
  | _ => false

/-- The file writes of a trace, with the written lines. -/
def writesOf (t : Trace) : List (String × List String) :=
  t.filterMap fun e =>
    match e with
    | .write p ls => some (p, ls)
    | _ => none

/-- No event of the trace invokes a subcommand listed in `bad`. -/
def cleanOf (bad : List String) (t : Trace) : Bool :=
  t.all fun e => !(bad.any (fun s => isStage s e))

/-- No `later`-subcommand event occurs before the first
`earlier`-subcommand event; i.e., every `later` invocation is preceded by
some `earlier` invocation. -/
def noLaterBeforeEarlier (later earlier : String) : Trace → Bool
  | [] => true
  | e :: t =>
    if isStage earlier e then true
    else if isStage later e then false
    else noLaterBeforeEarlier later earlier t

/-- No `later` event occurs before an `a` event followed by a `b` event
have both been seen (in that order). -/
def noLaterBeforeSeq (later a b : String) : Trace → Bool
  | [] => true
  | e :: t =>
    if isStage later e then false
    else if isStage a e then noLaterBeforeEarlier later b t
    else noLaterBeforeSeq later a b t

/-- The last path argument of a command (the input file of the
single-input bustools subcommands). -/
def lastPathArg (args : List Arg) : Option String :=
  match args.getLast? with
  | some (.path p) => some p
  | _ => none

/-- Whether an event is a `bustools sort` invocation whose input is `p`. -/
def isSortOn (p : String) (e : Event) : Bool :=
  match e with
  | .cmd args => isStage "sort" e && lastPathArg args == some p
  | _ => false

/-- A sort whose input is `raw` occurs before the first correct event
(trivially true when no correct event exists). -/
def rawSortBeforeCorrect (raw : String) : Trace → Bool
  | [] => true
  | e :: t =>
    if isSortOn raw e then true
    else if isStage "correct" e then false
    else rawSortBeforeCorrect raw t

/-- The first command of the given subcommand in the trace. -/
def firstStageCmd (s : String) (t : Trace) : Option (List Arg) :=
  match t.find? (isStage s) with
  | some (.cmd args) => some args
  | _ => none

/-- The argument following the `-x` flag, if any. -/
def argAfterX : List Arg → Option Arg
  | [] => none
  | Arg.lit "-x" :: rest => rest.head?
  | _ :: rest => argAfterX rest

/-- Every `kallisto bus` command line of the trace carries the expected
technology argument after `-x` (`expected = none` meaning no `-x`). -/
def busTechOk (t : Trace) (expected : Option Arg) : Bool :=
  (cmds t).all fun c =>
    !(c.get? 1 == some (Arg.lit "bus")) || (argAfterX c == expected)

/-- `stream_fastqs` applied `n` times (the fastq list is re-streamed at
every iteration of the `kallisto_bus_split` loop). -/
def streamedN (temp_dir : String) (fq : List String) : Nat → List String
  | 0 => fq
  | n + 1 => stream_fastqs (streamedN temp_dir fq n) temp_dir

/-- The expected trace of one shard of `kallisto_bus_split`: a
`kallisto bus` run with `--num` and `--kmer` into part directory `i` on
the (re-)streamed fastqs, a by-flag sort of that part's BUS file to the
`cnt`-th temporary file, and a move of the sorted file back over the
part's `output.bus`. -/
def splitSeg (env : Env) (technology temp_dir : String) (threads : Nat)
    (memory : String) (paired : Bool) (strand : Option String)
    (cnt i : Nat) (index_path : String) (fq : List String) : Trace :=
  (kallisto_bus env (.files fq) index_path technology (busPartDir temp_dir i)
    threads true true paired strand).2
  ++ (bustools_sort env (joinPath (busPartDir temp_dir i) BUS_FILENAME)
      (tmpFile temp_dir cnt) temp_dir threads memory true).2
  ++ [Event.move (tmpFile temp_dir cnt) (joinPath (busPartDir temp_dir i) BUS_FILENAME)]


/-! ## Concrete fixtures used by witness theorems -/

/-- A concrete environment for witnesses. -/
def envW : Env :=
  { kallisto_path := "kallisto"
    bustools_path := "bustools"
    exists_path := fun _ => false
    whitelist_provided := fun _ => false
    copy_whitelist := fun _ d => joinPath d "copied_whitelist.txt"
    copy_map := fun _ d => joinPath d "feature_map.txt"
    update_filename := fun f c => c ++ "." ++ f
    t2g := fun _ _ => none }

/-- A concrete empty file-content oracle for witnesses. -/
def oW : Oracle := fun _ => []

/-- A concrete OS interface for witnesses: nothing on the search path,
every path an existing, non-executable file. -/
def osW : OsEnv :=
  { which := fun _ => none
    isfile := fun _ => true
    abspath := fun s => "/abs/" ++ s
    access_X_OK := fun _ => false }

/-- A concrete initial configuration state for witnesses. -/
def cfg0 : Config := { kallisto_path := none, bustools_path := none }

/-- The `count_smartseq` argument record used by the C10 witness. -/
def ssArgsW : SsArgs :=
  { index_paths := ["i1", "i2"]
    t2g_path := "t2g.txt"
    technology := "SMARTSEQ"
    out_dir := "out"
    fastq_pairs := [("a_1.fastq", "a_2.fastq")] }

/-- The `count` argument record used by concrete witnesses. -/
def countArgsW : CountArgs :=
  { index_paths := ["index.idx"]
    t2g_path := "t2g.txt"
    technology := "10XV3"
    out_dir := "out"
    fastqs := .files ["r1.fastq", "r2.fastq"] }


/-! ## Compositional lemmas about the trace observations -/

theorem cmds_append (t1 t2 : Trace) : cmds (t1 ++ t2) = cmds t1 ++ cmds t2 :=
  List.filterMap_append t1 t2 _

theorem writesOf_append (t1 t2 : Trace) :
    writesOf (t1 ++ t2) = writesOf t1 ++ writesOf t2 :=
  List.filterMap_append t1 t2 _

theorem cleanOf_append (bad : List String) (t1 t2 : Trace) :
    cleanOf bad (t1 ++ t2) = (cleanOf bad t1 && cleanOf bad t2) :=
  List.all_append

theorem cleanOf_mono {bad : List String} {t1 t2 : Trace}
    (h1 : cleanOf bad t1 = true) (h2 : cleanOf bad t2 = true) :
    cleanOf bad (t1 ++ t2) = true := by
  rw [cleanOf_append, h1, h2]
  rfl

theorem any_isStage_of_stageOf {bad : List String} {e : Event} {st : String}
    (hst : stageOf e = some st) (h : st ∉ bad) :
    (bad.any (fun s => isStage s e)) = false := by
  refine List.any_eq_false.mpr ?_
  intro s hs hcon
  have heq : st = s := by
    simp [isStage, hst] at hcon
    exact hcon
  exact h (heq ▸ hs)

theorem any_isStage_of_none {bad : List String} {e : Event}
    (hst : stageOf e = none) : (bad.any (fun s => isStage s e)) = false := by
  refine List.any_eq_false.mpr ?_
  intro s _ hcon
  simp [isStage, hst] at hcon

theorem cleanOf_nil (bad : List String) : cleanOf bad [] = true := rfl

theorem cleanOf_cons_iff {bad : List String} {e : Event} {t : Trace} :
    cleanOf bad (e :: t) = true
      ↔ ((bad.any (fun s => isStage s e)) = false ∧ cleanOf bad t = true) := by
  simp only [cleanOf, List.all_cons, Bool.and_eq_true, Bool.not_eq_true']

theorem cleanOf_cons {bad : List String} {e : Event} {t : Trace}
    (he : (bad.any (fun s => isStage s e)) = false) (ht : cleanOf bad t = true) :
    cleanOf bad (e :: t) = true :=
  cleanOf_cons_iff.mpr ⟨he, ht⟩

theorem stage_false_of_clean {bad : List String} {e : Event} {s : String}
    (hmem : s ∈ bad) (he : (bad.any (fun x => isStage x e)) = false) :
    isStage s e = false :=
  eq_false_of_ne_true (List.any_eq_false.mp he s hmem)

theorem noLBE_append_clean {later earlier : String} {t1 t2 : Trace}
    (h : cleanOf [later, earlier] t1 = true) :
    noLaterBeforeEarlier later earlier (t1 ++ t2)
      = noLaterBeforeEarlier later earlier t2 := by
  induction t1 with
  | nil => rfl
  | cons e t ih =>
    obtain ⟨he, ht⟩ := cleanOf_cons_iff.mp h
    have h1 : isStage later e = false :=
      stage_false_of_clean (by simp) he
    have h2 : isStage earlier e = false :=
      stage_false_of_clean (by simp) he
    simp only [List.cons_append, noLaterBeforeEarlier, h1, h2, if_false]
    exact ih ht

theorem noLBE_cons_earlier {later earlier : String} {e : Event} {t : Trace}
    (h : isStage earlier e = true) :
    noLaterBeforeEarlier later earlier (e :: t) = true := by
  simp [noLaterBeforeEarlier, h]

theorem noLBE_of_clean {later earlier : String} {t : Trace}
    (h : cleanOf [later] t = true) :
    noLaterBeforeEarlier later earlier t = true := by
  induction t with
  | nil => rfl
  | cons e t ih =>
    obtain ⟨he, ht⟩ := cleanOf_cons_iff.mp h
    have h1 : isStage later e = false :=
      stage_false_of_clean (by simp) he
    by_cases h2 : isStage earlier e = true
    · simp [noLaterBeforeEarlier, h2]
    · simp only [noLaterBeforeEarlier, h1, if_false,
        eq_false_of_ne_true h2]
      exact ih ht

theorem noLBS_append_clean {later a b : String} {t1 t2 : Trace}
    (h : cleanOf [later, a] t1 = true) :
    noLaterBeforeSeq later a b (t1 ++ t2) = noLaterBeforeSeq later a b t2 := by
  induction t1 with
  | nil => rfl
  | cons e t ih =>
    obtain ⟨he, ht⟩ := cleanOf_cons_iff.mp h
    have h1 : isStage later e = false :=
      stage_false_of_clean (by simp) he
    have h2 : isStage a e = false :=
      stage_false_of_clean (by simp) he
    simp only [List.cons_append, noLaterBeforeSeq, h1, h2, if_false]
    exact ih ht

theorem noLBS_cons_a {later a b : String} {e : Event} {t : Trace}
    (h1 : isStage later e = false) (h2 : isStage a e = true) :
    noLaterBeforeSeq later a b (e :: t) = noLaterBeforeEarlier later b t := by
  simp [noLaterBeforeSeq, h1, h2]

theorem rawSBC_append_clean {raw : String} {t1 t2 : Trace}
    (h : cleanOf ["correct"] t1 = true)
    (h2 : rawSortBeforeCorrect raw t2 = true) :
    rawSortBeforeCorrect raw (t1 ++ t2) = true := by
  induction t1 with
  | nil => exact h2
  | cons e t ih =>
    obtain ⟨he, ht⟩ := cleanOf_cons_iff.mp h
    have hc : isStage "correct" e = false :=
      stage_false_of_clean (by simp) he
    by_cases hs : isSortOn raw e = true
    · simp [rawSortBeforeCorrect, hs]
    · simp only [List.cons_append, rawSortBeforeCorrect,
        eq_false_of_ne_true hs, hc, if_false]
      exact ih ht

theorem rawSBC_cons_hit {raw : String} {e : Event} {t : Trace}
    (h : isSortOn raw e = true) :
    rawSortBeforeCorrect raw (e :: t) = true := by
  simp [rawSortBeforeCorrect, h]

theorem rawSBC_of_clean {raw : String} {t : Trace}
    (h : cleanOf ["correct"] t = true) :
    rawSortBeforeCorrect raw t = true := by
  have := @rawSBC_append_clean raw t [] h rfl
  simpa using this

/-! ## Claim C4 -/

/-- C4: `bustools_count` passes `--genecounts` if and only if `tcc` is
false, and its returned dictionary maps `mtx` to `{out_prefix}.mtx`,
`barcodes` to `{out_prefix}.barcodes.txt`, and `ec` to
`{out_prefix}.ec.txt` exactly when `tcc` is true but `genes` to
`{out_prefix}.genes.txt` exactly when `tcc` is false — so a TCC run is
keyed per equivalence class rather than per gene. -/
theorem C4_bustools_count_genecounts_and_outputs (env : Env)
    (bus_path out_pref t2g_path ecmap_path txnames_path : String)
    (tcc mm cm umi_gene em : Bool) :
    ∃ c, cmds (bustools_count env bus_path out_pref t2g_path ecmap_path
        txnames_path tcc mm cm umi_gene em).2 = [c]
      ∧ ((Arg.lit "--genecounts") ∈ c ↔ tcc = false)
      ∧ dget (bustools_count env bus_path out_pref t2g_path ecmap_path
          txnames_path tcc mm cm umi_gene em).1 "mtx"
          = some (out_pref ++ ".mtx")
      ∧ dget (bustools_count env bus_path out_pref t2g_path ecmap_path
          txnames_path tcc mm cm umi_gene em).1 "barcodes"
          = some (out_pref ++ ".barcodes.txt")
      ∧ dget (bustools_count env bus_path out_pref t2g_path ecmap_path
          txnames_path tcc mm cm umi_gene em).1 "ec"
          = (if tcc then some (out_pref ++ ".ec.txt") else none)
      ∧ dget (bustools_count env bus_path out_pref t2g_path ecmap_path
          txnames_path tcc mm cm umi_gene em).1 "genes"
          = (if tcc then none else some (out_pref ++ ".genes.txt")) := by
  refine ⟨_, rfl, ?_, ?_, ?_, ?_, ?_⟩ <;>
    cases tcc <;> cases mm <;> cases cm <;> cases umi_gene <;> cases em <;>
      simp [bustools_count, cmds, dget]

/-! ## Claim C8 -/

/-- C8: `set_kallisto_binary_path` (and identically
`set_bustools_binary_path`) raises the generic exception exactly when the
argument resolves neither via the executable search path nor to an
existing file, raises `NotExecutableException` exactly when the path
resolves but the resolved file is not executable, leaves the global
unchanged in every error case, and on success sets the global to the
absolute resolved path. -/
theorem C8_set_binary_paths (os : OsEnv) (path : String) (cfg : Config) :
    ((set_kallisto_binary_path os path cfg).2 = some (PathError.unresolved path)
      ↔ (os.which path = none ∧ os.isfile path = false))
    ∧ (∀ a, (set_kallisto_binary_path os path cfg).2 = some (PathError.notExecutable a)
      ↔ (resolveBinary os path = some a ∧ os.access_X_OK a = false))
    ∧ ((set_kallisto_binary_path os path cfg).2.isSome = true
      → (set_kallisto_binary_path os path cfg).1 = cfg)
    ∧ ((set_kallisto_binary_path os path cfg).2 = none
      → ∃ actual, resolveBinary os path = some actual
          ∧ os.access_X_OK actual = true
          ∧ (set_kallisto_binary_path os path cfg).1
              = { cfg with kallisto_path := some actual })
    ∧ ((set_bustools_binary_path os path cfg).2 = some (PathError.unresolved path)
      ↔ (os.which path = none ∧ os.isfile path = false))
    ∧ (∀ a, (set_bustools_binary_path os path cfg).2 = some (PathError.notExecutable a)
      ↔ (resolveBinary os path = some a ∧ os.access_X_OK a = false))
    ∧ ((set_bustools_binary_path os path cfg).2.isSome = true
      → (set_bustools_binary_path os path cfg).1 = cfg)
    ∧ ((set_bustools_binary_path os path cfg).2 = none
      → ∃ actual, resolveBinary os path = some actual
          ∧ os.access_X_OK actual = true
          ∧ (set_bustools_binary_path os path cfg).1
              = { cfg with bustools_path := some actual }) := by
  have hres : resolveBinary os path = none
      ↔ (os.which path = none ∧ os.isfile path = false) := by
    unfold resolveBinary
    rcases hw : os.which path with _ | sp
    · by_cases hf : os.isfile path = true <;> simp [hw, hf]
    · simp [hw]
  constructor
  · rcases hr : resolveBinary os path with _ | actual
    · simp [set_kallisto_binary_path, hr, hres.mp hr]
    · have : ¬(os.which path = none ∧ os.isfile path = false) := by
        intro hc
        rw [hres.mpr hc] at hr
        exact Option.noConfusion hr
      by_cases ha : os.access_X_OK actual = true <;>
        simp [set_kallisto_binary_path, hr, ha, this]
  refine ⟨?_, ?_, ?_, ?_, ?_, ?_, ?_⟩
  · intro a
    rcases hr : resolveBinary os path with _ | actual
    · simp [set_kallisto_binary_path, hr]
    · by_cases ha : os.access_X_OK actual = true
      · have hval : (set_kallisto_binary_path os path cfg).2 = none := by
          simp [set_kallisto_binary_path, hr, ha]
        rw [hval]
        constructor
        · intro hcon; exact Option.noConfusion hcon
        · rintro ⟨h1, h2⟩
          have haa : actual = a := Option.some.inj h1
          subst haa
          exact absurd h2 (by simp [ha])
      · have hval : (set_kallisto_binary_path os path cfg).2
            = some (PathError.notExecutable actual) := by
          simp [set_kallisto_binary_path, hr, ha]
        rw [hval]
        constructor
        · intro hcon
          have haa : actual = a :=
            PathError.notExecutable.inj (Option.some.inj hcon)
          subst haa
          exact ⟨rfl, eq_false_of_ne_true ha⟩
        · rintro ⟨h1, h2⟩
          have haa : actual = a := Option.some.inj h1
          rw [haa]
  · rcases hr : resolveBinary os path with _ | actual
    · simp [set_kallisto_binary_path, hr]
    · by_cases ha : os.access_X_OK actual = true <;>
        simp [set_kallisto_binary_path, hr, ha]
  · rcases hr : resolveBinary os path with _ | actual
    · simp [set_kallisto_binary_path, hr]
    · by_cases ha : os.access_X_OK actual = true <;>
        simp [set_kallisto_binary_path, hr, ha]
  · rcases hr : resolveBinary os path with _ | actual
    · simp [set_bustools_binary_path, hr, hres.mp hr]
    · have : ¬(os.which path = none ∧ os.isfile path = false) := by
        intro hc
        rw [hres.mpr hc] at hr
        exact Option.noConfusion hr
      by_cases ha : os.access_X_OK actual = true <;>
        simp [set_bustools_binary_path, hr, ha, this]
  · intro a
    rcases hr : resolveBinary os path with _ | actual
    · simp [set_bustools_binary_path, hr]
    · by_cases ha : os.access_X_OK actual = true
      · have hval : (set_bustools_binary_path os path cfg).2 = none := by
          simp [set_bustools_binary_path, hr, ha]
        rw [hval]
        constructor
        · intro hcon; exact Option.noConfusion hcon
        · rintro ⟨h1, h2⟩
          have haa : actual = a := Option.some.inj h1
          subst haa
          exact absurd h2 (by simp [ha])
      · have hval : (set_bustools_binary_path os path cfg).2
            = some (PathError.notExecutable actual) := by
          simp [set_bustools_binary_path, hr, ha]
        rw [hval]
        constructor
        · intro hcon
          have haa : actual = a :=
            PathError.notExecutable.inj (Option.some.inj hcon)
          subst haa
          exact ⟨rfl, eq_false_of_ne_true ha⟩
        · rintro ⟨h1, h2⟩
          have haa : actual = a := Option.some.inj h1
          rw [haa]
  · rcases hr : resolveBinary os path with _ | actual
    · simp [set_bustools_binary_path, hr]
    · by_cases ha : os.access_X_OK actual = true <;>
        simp [set_bustools_binary_path, hr, ha]
  · rcases hr : resolveBinary os path with _ | actual
    · simp [set_bustools_binary_path, hr]
    · by_cases ha : os.access_X_OK actual = true <;>
        simp [set_bustools_binary_path, hr, ha]

/-- Witness for C8: with nothing on the search path and an existing but
non-executable file, both setters raise `NotExecutableException` on the
resolved absolute path and leave the configuration unchanged. -/
theorem C8_set_binary_paths_witness :
    (set_kallisto_binary_path osW "kallisto" cfg0).2
        = some (PathError.notExecutable "/abs/kallisto")
    ∧ (set_kallisto_binary_path osW "kallisto" cfg0).1 = cfg0 := by
  have h := C8_set_binary_paths osW "kallisto" cfg0
  have h2 := (h.2.1 "/abs/kallisto").mpr ⟨rfl, rfl⟩
  exact ⟨h2, h.2.2.1 (by rw [h2]; rfl)⟩

/-! ## Claim C9 -/

/-- C9: `convert_transcripts_to_genes` writes exactly one output line per
non-blank input line, in order — the first t2g attribute when the stripped
transcript has a non-empty attribute tuple, the stripped transcript
otherwise — and returns the `genes_path` argument. -/
theorem C9_convert_transcripts_to_genes (env : Env) (o : Oracle)
    (txnames_path t2g_path genes_path : String) :
    (convert_transcripts_to_genes env o txnames_path t2g_path genes_path).1
      = genes_path
    ∧ writesOf (convert_transcripts_to_genes env o txnames_path t2g_path genes_path).2
      = [(genes_path,
          ((o txnames_path).filter (fun l => !pyIsSpace l)).map
            (t2gLine (env.t2g t2g_path)))] := by
  have key : ∀ (tg : String → Option (List String)) (lines acc : List String),
      lines.foldl (fun acc line =>
          if pyIsSpace line then acc else acc ++ [t2gLine tg line]) acc
        = acc ++ (lines.filter (fun l => !pyIsSpace l)).map (t2gLine tg) := by
    intro tg lines
    induction lines with
    | nil => intro acc; simp
    | cons l ls ih =>
      intro acc
      by_cases hl : pyIsSpace l = true
      · simp [List.foldl_cons, hl, ih]
      · simp only [List.foldl_cons, eq_false_of_ne_true hl, if_false,
          List.filter_cons, Bool.not_eq_true']
        rw [ih]
        simp [eq_false_of_ne_true hl]
  constructor
  · rfl
  · simp only [convert_transcripts_to_genes, writesOf, List.filterMap]
    rw [key]
    simp

/-! ## Claim C10 -/

/-- C10: `count_smartseq` raises before invoking any external tool when
more than one index is supplied, likewise when any FASTQ of `fastq_pairs`
has URL scheme http/https/ftp/ftps, and with a single index and local
FASTQs it proceeds past these checks without raising. -/
theorem C10_count_smartseq_checks (env : Env) (o : Oracle) (a : SsArgs) :
    (a.index_paths.length > 1
      → (count_smartseq env o a).1
          = SsOutcome.err ("Technology " ++ a.technology
              ++ " does not support multiple indices.")
        ∧ (count_smartseq env o a).2 = [])
    ∧ ((a.index_paths.length ≤ 1
        ∧ (a.fastq_pairs.any (fun pr =>
            ["http", "https", "ftp", "ftps"].contains (urlscheme pr.1)
            || ["http", "https", "ftp", "ftps"].contains (urlscheme pr.2))) = true)
      → (count_smartseq env o a).1
          = SsOutcome.err ("Technology " ++ a.technology
              ++ " does not support FASTQ streaming.")
        ∧ (count_smartseq env o a).2 = [])
    ∧ ((a.index_paths.length ≤ 1
        ∧ (a.fastq_pairs.any (fun pr =>
            ["http", "https", "ftp", "ftps"].contains (urlscheme pr.1)
            || ["http", "https", "ftp", "ftps"].contains (urlscheme pr.2))) = false)
      → ((count_smartseq env o a).1.isOk = true)) := by
  refine ⟨?_, ?_, ?_⟩
  · intro h
    have hv : count_smartseq env o a
        = (SsOutcome.err ("Technology " ++ a.technology
            ++ " does not support multiple indices."), []) := by
      rw [count_smartseq, if_pos h]
    rw [hv]
    exact ⟨rfl, rfl⟩
  · intro h
    have h1 : ¬(a.index_paths.length > 1) := by omega
    have hv : count_smartseq env o a
        = (SsOutcome.err ("Technology " ++ a.technology
            ++ " does not support FASTQ streaming."), []) := by
      rw [count_smartseq, if_neg h1, if_pos h.2]
    rw [hv]
    exact ⟨rfl, rfl⟩
  · intro h
    have h1 : ¬(a.index_paths.length > 1) := by omega
    have h2 : ¬((a.fastq_pairs.any (fun pr =>
        ["http", "https", "ftp", "ftps"].contains (urlscheme pr.1)
        || ["http", "https", "ftp", "ftps"].contains (urlscheme pr.2))) = true) := by
      rw [h.2]
      exact Bool.false_ne_true
    rw [count_smartseq, if_neg h1, if_neg h2]
    rfl

/-! ## Claim C2 -/

theorem streamedN_shift (temp_dir : String) (fq : List String) (n : Nat) :
    streamedN temp_dir (stream_fastqs fq temp_dir) n
      = streamedN temp_dir fq (n + 1) := by
  induction n with
  | zero => rfl
  | succ m ih => simp only [streamedN, ih]

theorem splitLoop_eq (env : Env) (technology temp_dir : String) (threads : Nat)
    (memory : String) (paired : Bool) (strand : Option String) :
    ∀ (l : List String) (i0 : Nat) (st : SplitSt),
    List.foldl (splitStep env technology temp_dir threads memory paired strand)
        st (List.enumFrom i0 l)
      = { dirs := st.dirs ++ (List.range l.length).map (fun j => busPartDir temp_dir (i0 + j))
          fastqs := streamedN temp_dir st.fastqs l.length
          n := st.n + l.length
          tr := st.tr ++ ((List.range l.length).map (fun j =>
              splitSeg env technology temp_dir threads memory paired strand
                (st.n + j) (i0 + j) (l.getD j "")
                (streamedN temp_dir st.fastqs (j + 1)))).flatten } := by
  intro l
  induction l with
  | nil =>
    intro i0 st
    cases st
    simp [streamedN]
  | cons x xs ih =>
    intro i0 st
    have hstep : splitStep env technology temp_dir threads memory paired strand st (i0, x)
        = { dirs := st.dirs ++ [busPartDir temp_dir i0]
            fastqs := stream_fastqs st.fastqs temp_dir
            n := st.n + 1
            tr := st.tr ++ splitSeg env technology temp_dir threads memory paired strand
              st.n i0 x (stream_fastqs st.fastqs temp_dir) } := by
      simp [splitStep, splitSeg, bustools_sort, dgetD, dget, List.append_assoc]
    show List.foldl _ _ ((i0, x) :: List.enumFrom (i0 + 1) xs) = _
    rw [List.foldl_cons, hstep, ih (i0 + 1)]
    simp only [SplitSt.mk.injEq]
    refine ⟨?_, ?_, ?_, ?_⟩
    · simp only [List.length_cons, List.range_succ_eq_map, List.map_cons,
        List.map_map, List.append_assoc, List.singleton_append]
      refine congrArg _ (congrArg _ ?_)
      refine List.map_congr_left ?_
      intro j _
      simp only [Function.comp_apply]
      refine congrArg _ ?_
      omega
    · rw [streamedN_shift]
      simp [List.length_cons]
    · simp only [List.length_cons]
      omega
    · simp only [List.length_cons, List.range_succ_eq_map, List.map_cons,
        List.map_map, List.flatten_cons, List.append_assoc]
      refine congrArg _ ?_
      simp only [Nat.add_zero, List.getD_cons_zero]
      show _ = splitSeg env technology temp_dir threads memory paired strand
          (st.n + 0) (i0 + 0) x (streamedN temp_dir st.fastqs (0 + 1)) ++ _
      simp only [Nat.add_zero, Nat.zero_add, streamedN]
      refine congrArg _ (congrArg _ (List.map_congr_left ?_))
      intro j _
      simp only [Function.comp_apply, List.getD_cons_succ]
      rw [streamedN_shift]
      have h1 : st.n + 1 + j = st.n + (j + 1) := by omega
      have h2 : i0 + 1 + j = i0 + (j + 1) := by omega
      rw [h1, h2]

/-- Full characterization of `kallisto_bus_split`: per-shard
bus/sort/move segments, then mash, a by-flag sort of the mashed file
moved back over it, merge, and moves of the merged BUS file and ecmap
into the output directory, together with the returned dictionary and the
final temporary-file counter. -/
theorem kallisto_bus_split_eq (env : Env) (o : Oracle)
    (fastqs index_paths : List String) (technology out_dir temp_dir : String)
    (threads : Nat) (memory : String) (paired : Bool) (strand : Option String)
    (n0 : Nat) :
    kallisto_bus_split env o fastqs index_paths technology out_dir temp_dir
        threads memory paired strand n0
      = ([("bus", joinPath out_dir BUS_FILENAME),
          ("ecmap", joinPath out_dir ECMAP_FILENAME),
          ("txnames", joinPath out_dir TXNAMES_FILENAME),
          ("info", joinPath out_dir KALLISTO_INFO_FILENAME)],
         n0 + index_paths.length + 1,
         ((List.range index_paths.length).map (fun j =>
             splitSeg env technology temp_dir threads memory paired strand
               (n0 + j) j (index_paths.getD j "")
               (streamedN temp_dir fastqs (j + 1)))).flatten
         ++ (bustools_mash env o
             ((List.range index_paths.length).map (busPartDir temp_dir)) out_dir).2
         ++ (bustools_sort env (joinPath out_dir BUS_MASHED_FILENAME)
             (tmpFile temp_dir (n0 + index_paths.length)) temp_dir threads memory true).2
         ++ [Event.move (tmpFile temp_dir (n0 + index_paths.length))
             (joinPath out_dir BUS_MASHED_FILENAME)]
         ++ (bustools_merge env (joinPath out_dir BUS_MASHED_FILENAME) out_dir
             (joinPath out_dir ECMAP_FILENAME) (joinPath out_dir TXNAMES_FILENAME)).2
         ++ [Event.move (joinPath out_dir BUS_MERGED_FILENAME)
               (joinPath out_dir BUS_FILENAME),
             Event.move (joinPath out_dir ECMAP_MERGED_FILENAME)
               (joinPath out_dir ECMAP_FILENAME)]) := by
  have hloop := splitLoop_eq env technology temp_dir threads memory paired strand
    index_paths 0 { dirs := [], fastqs := fastqs, n := n0, tr := [] }
  unfold kallisto_bus_split
  rw [show index_paths.enum = List.enumFrom 0 index_paths from rfl, hloop]
  simp only [List.nil_append, Nat.zero_add, bustools_mash, bustools_sort,
    bustools_merge, dgetD, dget]
  simp [List.append_assoc]

theorem cmds_flatten (ts : List Trace) :
    cmds ts.flatten = (ts.map cmds).flatten := by
  induction ts with
  | nil => rfl
  | cons t rest ih => simp [cmds_append, ih]

theorem all_flatten {α : Type} (P : α → Bool) (L : List (List α)) :
    L.flatten.all P = L.all (fun l => l.all P) := by
  induction L with
  | nil => rfl
  | cons l rest ih => simp [List.all_append, ih]

/-! ## Claim C2 -/

/-- C2: with more than one index, `kallisto_bus_split` runs
`kallisto bus` once per index shard into a separate part directory with
the `--num` and `--kmer` flags, sorts each part's BUS file by flag and
overwrites that part's `output.bus` with the sorted result, mashes the
part directories, sorts the mashed BUS file by flag and overwrites it,
merges it, moves the merged BUS file and merged ecmap into the output
directory, and returns the moved bus and ecmap paths plus the txnames and
run-info paths in the output directory. -/
theorem C2_kallisto_bus_split_pipeline (env : Env) (o : Oracle)
    (fastqs index_paths : List String) (technology out_dir temp_dir : String)
    (threads : Nat) (memory : String) (paired : Bool) (strand : Option String)
    (n0 : Nat) (hlen : 1 < index_paths.length) :
    (kallisto_bus_split env o fastqs index_paths technology out_dir temp_dir
        threads memory paired strand n0
      = ([("bus", joinPath out_dir BUS_FILENAME),
          ("ecmap", joinPath out_dir ECMAP_FILENAME),
          ("txnames", joinPath out_dir TXNAMES_FILENAME),
          ("info", joinPath out_dir KALLISTO_INFO_FILENAME)],
         n0 + index_paths.length + 1,
         ((List.range index_paths.length).map (fun j =>
             splitSeg env technology temp_dir threads memory paired strand
               (n0 + j) j (index_paths.getD j "")
               (streamedN temp_dir fastqs (j + 1)))).flatten
         ++ (bustools_mash env o
             ((List.range index_paths.length).map (busPartDir temp_dir)) out_dir).2
         ++ (bustools_sort env (joinPath out_dir BUS_MASHED_FILENAME)
             (tmpFile temp_dir (n0 + index_paths.length)) temp_dir threads memory true).2
         ++ [Event.move (tmpFile temp_dir (n0 + index_paths.length))
             (joinPath out_dir BUS_MASHED_FILENAME)]
         ++ (bustools_merge env (joinPath out_dir BUS_MASHED_FILENAME) out_dir
             (joinPath out_dir ECMAP_FILENAME) (joinPath out_dir TXNAMES_FILENAME)).2
         ++ [Event.move (joinPath out_dir BUS_MERGED_FILENAME)
               (joinPath out_dir BUS_FILENAME),
             Event.move (joinPath out_dir ECMAP_MERGED_FILENAME)
               (joinPath out_dir ECMAP_FILENAME)]))
    ∧ ((cmds (kallisto_bus_split env o fastqs index_paths technology out_dir
          temp_dir threads memory paired strand n0).2.2).all (fun c =>
        !(c.get? 1 == some (Arg.lit "bus"))
        || (c.contains (Arg.lit "--num") && c.contains (Arg.lit "--kmer")))) = true := by
  refine ⟨kallisto_bus_split_eq env o fastqs index_paths technology out_dir
    temp_dir threads memory paired strand n0, ?_⟩
  have hseg : ∀ (cnt i : Nat) (idx : String) (fq : List String),
      ((cmds (splitSeg env technology temp_dir threads memory paired strand
          cnt i idx fq)).all (fun c =>
        !(c.get? 1 == some (Arg.lit "bus"))
        || (c.contains (Arg.lit "--num") && c.contains (Arg.lit "--kmer")))) = true := by
    intro cnt i idx fq
    simp [splitSeg, kallisto_bus, bustools_sort, cmds, List.contains]
  rw [kallisto_bus_split_eq]
  simp only [cmds_append, List.all_append, cmds_flatten, List.map_map,
    all_flatten, Bool.and_eq_true]
  refine ⟨⟨⟨⟨⟨?_, ?_⟩, ?_⟩, ?_⟩, ?_⟩, ?_⟩
  · refine List.all_eq_true.mpr ?_
    intro x hx
    obtain ⟨j, hj, rfl⟩ := List.mem_map.mp hx
    exact hseg (n0 + j) j (index_paths.getD j "") (streamedN temp_dir fastqs (j + 1))
  · simp [bustools_mash, cmds]
  · simp [bustools_sort, cmds]
  · rfl
  · simp [bustools_merge, cmds]
  · rfl

theorem noLBE_append_of_clean_later {later earlier : String} {t1 t2 : Trace}
    (h1 : cleanOf [later] t1 = true)
    (h2 : noLaterBeforeEarlier later earlier t2 = true) :
    noLaterBeforeEarlier later earlier (t1 ++ t2) = true := by
  induction t1 with
  | nil => exact h2
  | cons e t ih =>
    obtain ⟨he, ht⟩ := cleanOf_cons_iff.mp h1
    have hl : isStage later e = false := stage_false_of_clean (by simp) he
    by_cases hE : isStage earlier e = true
    · simp [noLaterBeforeEarlier, hE]
    · simp only [List.cons_append, noLaterBeforeEarlier,
        eq_false_of_ne_true hE, hl, if_false]
      exact ih ht

theorem cleanOf_map_read (bad : List String) (l : List String) (f : String → String) :
    cleanOf bad (l.map (fun d => Event.read (f d))) = true := by
  induction l with
  | nil => rfl
  | cons x xs ih => exact cleanOf_cons (any_isStage_of_none rfl) ih

theorem cleanOf_flatten {bad : List String} {L : List Trace}
    (h : ∀ t ∈ L, cleanOf bad t = true) : cleanOf bad L.flatten = true := by
  show L.flatten.all _ = true
  rw [all_flatten]
  exact List.all_eq_true.mpr h

theorem splitSeg_clean (env : Env) (tech td : String) (th : Nat) (mem : String)
    (pr : Bool) (s : Option String) (cnt i : Nat) (idx : String)
    (fq : List String) {bad : List String}
    (h1 : "bus" ∉ bad) (h2 : "sort" ∉ bad) :
    cleanOf bad (splitSeg env tech td th mem pr s cnt i idx fq) = true := by
  refine cleanOf_mono (cleanOf_mono ?_ ?_) ?_
  · exact cleanOf_cons (any_isStage_of_stageOf rfl h1) rfl
  · exact cleanOf_cons (any_isStage_of_stageOf rfl h2) rfl
  · exact cleanOf_cons (any_isStage_of_none rfl) rfl

theorem split_trace_clean (env : Env) (o : Oracle) (fq idx : List String)
    (tech od td : String) (th : Nat) (mem : String) (pr : Bool)
    (s : Option String) (n0 : Nat) {bad : List String}
    (h1 : "bus" ∉ bad) (h2 : "sort" ∉ bad) (h3 : "mash" ∉ bad)
    (h4 : "merge" ∉ bad) :
    cleanOf bad (kallisto_bus_split env o fq idx tech od td th mem pr s n0).2.2
      = true := by
  rw [kallisto_bus_split_eq]
  refine cleanOf_mono (cleanOf_mono (cleanOf_mono (cleanOf_mono
    (cleanOf_mono ?_ ?_) ?_) ?_) ?_) ?_
  · refine cleanOf_flatten ?_
    intro t ht
    obtain ⟨j, hj, rfl⟩ := List.mem_map.mp ht
    exact splitSeg_clean env tech td th mem pr s (n0 + j) j (idx.getD j "")
      (streamedN td fq (j + 1)) h1 h2
  · refine cleanOf_mono (cleanOf_mono ?_ ?_) ?_
    · exact cleanOf_cons (any_isStage_of_stageOf rfl h3) rfl
    · exact cleanOf_map_read bad _ _
    · exact cleanOf_cons (any_isStage_of_none rfl) rfl
  · exact cleanOf_cons (any_isStage_of_stageOf rfl h2) rfl
  · exact cleanOf_cons (any_isStage_of_none rfl) rfl
  · exact cleanOf_cons (any_isStage_of_stageOf rfl h4) rfl
  · exact cleanOf_cons (any_isStage_of_none rfl)
      (cleanOf_cons (any_isStage_of_none rfl) rfl)

theorem countBusPart_clean (env : Env) (o : Oracle) (a : CountArgs)
    {bad : List String} (h1 : "bus" ∉ bad) (h2 : "sort" ∉ bad)
    (h3 : "mash" ∉ bad) (h4 : "merge" ∉ bad) :
    cleanOf bad (countBusPart env o a).2 = true := by
  simp only [countBusPart]
  cases hrun : countRunBus env a
  · simp only [Bool.false_eq_true, if_false]
    rfl
  · simp only [eq_self_iff_true, if_true]
    by_cases hlen : a.index_paths.length > 1
    · rw [if_pos hlen]
      exact split_trace_clean env o _ _ _ _ _ _ _ _ _ _ h1 h2 h3 h4
    · rw [if_neg hlen]
      cases hbatch : a.fastqs.isBatch
      · simp only [Bool.false_eq_true, if_false]
        exact cleanOf_cons (any_isStage_of_stageOf rfl h1) rfl
      · simp only [eq_self_iff_true, if_true]
        refine cleanOf_mono ?_ ?_
        · exact cleanOf_cons (any_isStage_of_none rfl)
            (cleanOf_cons (any_isStage_of_none rfl) rfl)
        · exact cleanOf_cons (any_isStage_of_stageOf rfl h1) rfl

theorem ss3BusPart_clean (env : Env) (o : Oracle) (a : Ss3Args)
    {bad : List String} (h1 : "bus" ∉ bad) (h2 : "sort" ∉ bad)
    (h3 : "mash" ∉ bad) (h4 : "merge" ∉ bad) :
    cleanOf bad (ss3BusPart env o a).2 = true := by
  simp only [ss3BusPart]
  cases hrun : ss3RunBus env a
  · simp only [Bool.false_eq_true, if_false]
    rfl
  · simp only [eq_self_iff_true, if_true]
    by_cases hlen : a.index_paths.length > 1
    · rw [if_pos hlen]
      exact split_trace_clean env o _ _ _ _ _ _ _ _ _ _ h1 h2 h3 h4
    · rw [if_neg hlen]
      cases hbatch : a.fastqs.isBatch
      · simp only [Bool.false_eq_true, if_false]
        exact cleanOf_cons (any_isStage_of_stageOf rfl h1) rfl
      · simp only [eq_self_iff_true, if_true]
        refine cleanOf_mono ?_ ?_
        · exact cleanOf_cons (any_isStage_of_none rfl)
            (cleanOf_cons (any_isStage_of_none rfl) rfl)
        · exact cleanOf_cons (any_isStage_of_stageOf rfl h1) rfl

theorem velBusPart_clean (env : Env) (o : Oracle) (a : VelArgs)
    {bad : List String} (h1 : "bus" ∉ bad) (h2 : "sort" ∉ bad)
    (h3 : "mash" ∉ bad) (h4 : "merge" ∉ bad) :
    cleanOf bad (velBusPart env o a).2 = true := by
  simp only [velBusPart]
  cases hrun : velRunBus env a
  · simp only [Bool.false_eq_true, if_false]
    rfl
  · simp only [eq_self_iff_true, if_true]
    by_cases hlen : a.index_paths.length > 1
    · rw [if_pos hlen]
      exact split_trace_clean env o _ _ _ _ _ _ _ _ _ _ h1 h2 h3 h4
    · rw [if_neg hlen]
      exact cleanOf_cons (any_isStage_of_stageOf rfl h1) rfl

theorem countBusPart_bus (env : Env) (o : Oracle) (a : CountArgs) :
    dgetD (countBusPart env o a).1 "bus" = joinPath a.out_dir BUS_FILENAME := by
  simp only [countBusPart]
  cases hrun : countRunBus env a
  · simp only [Bool.false_eq_true, if_false]
    simp only [countBus0]
    split_ifs <;> simp [dgetD, dget]
  · simp only [eq_self_iff_true, if_true]
    by_cases hlen : a.index_paths.length > 1
    · rw [if_pos hlen, kallisto_bus_split_eq]
      simp [dgetD, dget]
    · rw [if_neg hlen]
      cases hbatch : a.fastqs.isBatch <;>
        simp only [Bool.false_eq_true, if_false, eq_self_iff_true, if_true] <;>
        simp only [kallisto_bus] <;> split_ifs <;> simp [dgetD, dget]

theorem ss3BusPart_bus (env : Env) (o : Oracle) (a : Ss3Args) :
    dgetD (ss3BusPart env o a).1 "bus" = joinPath a.out_dir BUS_FILENAME := by
  simp only [ss3BusPart]
  cases hrun : ss3RunBus env a
  · simp only [Bool.false_eq_true, if_false]
    simp [ss3Bus0, dgetD, dget]
  · simp only [eq_self_iff_true, if_true]
    by_cases hlen : a.index_paths.length > 1
    · rw [if_pos hlen, kallisto_bus_split_eq]
      simp [dgetD, dget]
    · rw [if_neg hlen]
      cases hbatch : a.fastqs.isBatch <;>
        simp only [Bool.false_eq_true, if_false, eq_self_iff_true, if_true] <;>
        simp only [kallisto_bus] <;> split_ifs <;> simp [dgetD, dget]

theorem velBusPart_bus (env : Env) (o : Oracle) (a : VelArgs) :
    dgetD (velBusPart env o a).1 "bus" = joinPath a.out_dir BUS_FILENAME := by
  simp only [velBusPart]
  cases hrun : velRunBus env a
  · simp only [Bool.false_eq_true, if_false]
    simp [velBus0, dgetD, dget]
  · simp only [eq_self_iff_true, if_true]
    by_cases hlen : a.index_paths.length > 1
    · rw [if_pos hlen, kallisto_bus_split_eq]
      simp [dgetD, dget]
    · rw [if_neg hlen]
      simp only [kallisto_bus]
      split_ifs <;> simp [dgetD, dget]

theorem copy_or_create_whitelist_clean (env : Env) (t b od : String)
    {bad : List String} (h : "whitelist" ∉ bad) :
    cleanOf bad (copy_or_create_whitelist env t b od).2 = true := by
  unfold copy_or_create_whitelist
  split
  · rfl
  · exact cleanOf_cons (any_isStage_of_stageOf rfl h) rfl

theorem matrix_to_cellranger_clean (o : Oracle) (m b g t od : String)
    (bad : List String) :
    cleanOf bad (matrix_to_cellranger o m b g t od).2 = true := by
  refine cleanOf_cons (any_isStage_of_none rfl) ?_
  refine cleanOf_cons (any_isStage_of_none rfl) ?_
  refine cleanOf_cons (any_isStage_of_none rfl) ?_
  refine cleanOf_cons (any_isStage_of_none rfl) ?_
  refine cleanOf_cons (any_isStage_of_none rfl) ?_
  refine cleanOf_cons (any_isStage_of_none rfl) ?_
  exact cleanOf_cons (any_isStage_of_none rfl) rfl

theorem convert_matrix_clean (cd mp bp : String) (l h : Bool)
    (bad : List String) :
    cleanOf bad (convert_matrix cd mp bp l h).2 = true := by
  unfold convert_matrix
  refine cleanOf_mono (cleanOf_mono ?_ ?_) ?_
  · exact cleanOf_cons (any_isStage_of_none rfl)
      (cleanOf_cons (any_isStage_of_none rfl) rfl)
  · split
    · exact cleanOf_cons (any_isStage_of_none rfl) rfl
    · rfl
  · split
    · exact cleanOf_cons (any_isStage_of_none rfl) rfl
    · rfl

theorem cleanOf_map_read_id (bad : List String) (l : List String) :
    cleanOf bad (l.map Event.read) = true := by
  induction l with
  | nil => rfl
  | cons x xs ih => exact cleanOf_cons (any_isStage_of_none rfl) ih

theorem convert_matrices_clean (cd : String) (mp bp : List String) (l h : Bool)
    (bad : List String) :
    cleanOf bad (convert_matrices cd mp bp l h).2 = true := by
  unfold convert_matrices
  refine cleanOf_mono (cleanOf_mono (cleanOf_mono ?_ ?_) ?_) ?_
  · exact cleanOf_map_read_id bad mp
  · exact cleanOf_map_read_id bad bp
  · split
    · exact cleanOf_cons (any_isStage_of_none rfl) rfl
    · rfl
  · split
    · exact cleanOf_cons (any_isStage_of_none rfl) rfl
    · rfl

theorem filter_with_bustools_clean (env : Env) (o : Oracle)
    (bus ec tx t2g wl fb : String) (ft : Option Nat) (cp : String)
    (tcc mm kite : Bool) (td : String) (th : Nat) (mem : String)
    (cnt loom h5ad cr ug em : Bool) {bad : List String}
    (h1 : "whitelist" ∉ bad) (h2 : "correct" ∉ bad) (h3 : "sort" ∉ bad)
    (h4 : "count" ∉ bad) :
    cleanOf bad (filter_with_bustools env o bus ec tx t2g wl fb ft cp tcc mm
      kite td th mem cnt loom h5ad cr ug em).2 = true := by
  unfold filter_with_bustools
  refine cleanOf_mono (cleanOf_mono (cleanOf_mono ?_ ?_) ?_) ?_
  · exact cleanOf_cons (any_isStage_of_stageOf rfl h1) rfl
  · exact cleanOf_cons (any_isStage_of_stageOf rfl h2) rfl
  · exact cleanOf_cons (any_isStage_of_stageOf rfl h3) rfl
  · split
    · refine cleanOf_mono (cleanOf_mono ?_ ?_) ?_
      · exact cleanOf_cons (any_isStage_of_stageOf rfl h4) rfl
      · split
        · exact convert_matrix_clean _ _ _ _ _ bad
        · rfl
      · split
        · exact matrix_to_cellranger_clean o _ _ _ _ _ bad
        · rfl
    · rfl

theorem countFilterPart_clean (env : Env) (o : Oracle) (a : CountArgs)
    (cb ec tx : String) {bad : List String}
    (h1 : "whitelist" ∉ bad) (h2 : "correct" ∉ bad) (h3 : "sort" ∉ bad)
    (h4 : "count" ∉ bad) :
    cleanOf bad (countFilterPart env o a cb ec tx).2 = true := by
  unfold countFilterPart
  split
  · exact filter_with_bustools_clean env o _ _ _ _ _ _ _ _ _ _ _ _ _ _ _ _ _ _ _ _
      h1 h2 h3 h4
  · rfl

theorem velocityPass_clean (env : Env) (o : Oracle) (a : VelArgs)
    (wlOpt : Option String) (sb ec tx pfx t2c : String) {bad : List String}
    (h1 : "capture" ∉ bad) (h2 : "sort" ∉ bad) (h3 : "inspect" ∉ bad)
    (h4 : "count" ∉ bad) :
    cleanOf bad (velocityPass env o a wlOpt sb ec tx pfx t2c).2 = true := by
  unfold velocityPass
  refine cleanOf_mono (cleanOf_mono (cleanOf_mono (cleanOf_mono ?_ ?_) ?_) ?_) ?_
  · exact cleanOf_cons (any_isStage_of_stageOf rfl h1) rfl
  · exact cleanOf_cons (any_isStage_of_stageOf rfl h2) rfl
  · split
    · exact cleanOf_cons (any_isStage_of_stageOf rfl h3) rfl
    · rfl
  · exact cleanOf_cons (any_isStage_of_stageOf rfl h4) rfl
  · split
    · exact matrix_to_cellranger_clean o _ _ _ _ _ bad
    · rfl

theorem velocityFilteredPass_clean (env : Env) (o : Oracle) (a : VelArgs)
    (sb ec tx pfx t2c : String) {bad : List String}
    (h1 : "capture" ∉ bad) (h2 : "sort" ∉ bad) (h4 : "count" ∉ bad) :
    cleanOf bad (velocityFilteredPass env o a sb ec tx pfx t2c).2.2 = true := by
  unfold velocityFilteredPass
  refine cleanOf_mono (cleanOf_mono (cleanOf_mono ?_ ?_) ?_) ?_
  · exact cleanOf_cons (any_isStage_of_stageOf rfl h1) rfl
  · exact cleanOf_cons (any_isStage_of_stageOf rfl h2) rfl
  · exact cleanOf_cons (any_isStage_of_stageOf rfl h4) rfl
  · split
    · exact matrix_to_cellranger_clean o _ _ _ _ _ bad
    · rfl

theorem velocityFilterPart_clean (env : Env) (o : Oracle) (a : VelArgs)
    (sb ec tx : String) {bad : List String}
    (h1 : "whitelist" ∉ bad) (h2 : "correct" ∉ bad) (h3 : "sort" ∉ bad)
    (h4 : "count" ∉ bad) (h5 : "capture" ∉ bad) :
    cleanOf bad (velocityFilterPart env o a sb ec tx).2.2 = true := by
  unfold velocityFilterPart
  split
  · refine cleanOf_mono (cleanOf_mono (cleanOf_mono ?_ ?_) ?_) ?_
    · exact filter_with_bustools_clean env o _ _ _ _ _ _ _ _ _ _ _ _ _ _ _ _ _ _ _ _
        h1 h2 h3 h4
    · exact velocityFilteredPass_clean env o a _ _ _ _ _ h5 h3 h4
    · exact velocityFilteredPass_clean env o a _ _ _ _ _ h5 h3 h4
    · split
      · exact convert_matrices_clean _ _ _ _ _ bad
      · rfl
  · rfl

theorem bustools_sort_clean {env : Env} {bp op td : String} {th : Nat}
    {mem : String} {fl : Bool} {bad : List String} (h : "sort" ∉ bad) :
    cleanOf bad (bustools_sort env bp op td th mem fl).2 = true :=
  cleanOf_cons (any_isStage_of_stageOf rfl h) rfl

theorem bustools_correct_clean {env : Env} {bp op wl : String}
    {bad : List String} (h : "correct" ∉ bad) :
    cleanOf bad (bustools_correct env bp op wl).2 = true :=
  cleanOf_cons (any_isStage_of_stageOf rfl h) rfl

theorem bustools_inspect_clean {env : Env} {bp op : String}
    {wl ec : Option String} {bad : List String} (h : "inspect" ∉ bad) :
    cleanOf bad (bustools_inspect env bp op wl ec).2 = true :=
  cleanOf_cons (any_isStage_of_stageOf rfl h) rfl

theorem bustools_project_clean {env : Env} {bp op mp ec tx : String}
    {bad : List String} (h : "project" ∉ bad) :
    cleanOf bad (bustools_project env bp op mp ec tx).2 = true :=
  cleanOf_cons (any_isStage_of_stageOf rfl h) rfl

theorem bustools_capture_clean {env : Env} {bp op cp : String}
    {ec tx : Option String} {ct : String} {comp : Bool}
    {bad : List String} (h : "capture" ∉ bad) :
    cleanOf bad (bustools_capture env bp op cp ec tx ct comp).2 = true :=
  cleanOf_cons (any_isStage_of_stageOf rfl h) rfl

theorem bustools_count_stage_clean {env : Env} {bp op t2g ec tx : String}
    {tcc mm cm ug em : Bool} {bad : List String} (h : "count" ∉ bad) :
    cleanOf bad (bustools_count env bp op t2g ec tx tcc mm cm ug em).2 = true :=
  cleanOf_cons (any_isStage_of_stageOf rfl h) rfl

theorem kallisto_quant_tcc_clean {env : Env} {m si ec t2g od : String}
    {flp : Option String} {l s : Option Nat} {th : Nat}
    {bad : List String} (h : "quant-tcc" ∉ bad) :
    cleanOf bad (kallisto_quant_tcc env m si ec t2g od flp l s th).2 = true :=
  cleanOf_cons (any_isStage_of_stageOf rfl h) rfl

theorem cleanOf_single_write {bad : List String} {pth : String}
    {ls : List String} : cleanOf bad [Event.write pth ls] = true :=
  cleanOf_cons (any_isStage_of_none rfl) rfl

theorem lastPathArg_concat (l : List Arg) (p : String) :
    lastPathArg (l ++ [Arg.path p]) = some p := by
  simp [lastPathArg, List.getLast?_concat]

theorem rawSBC_sort_head {env : Env} {p out td : String} {th : Nat}
    {mem : String} {fl : Bool} {t : Trace} :
    rawSortBeforeCorrect p ((bustools_sort env p out td th mem fl).2 ++ t) = true := by
  refine rawSBC_cons_hit ?_
  simp only [isSortOn]
  rw [Bool.and_eq_true]
  refine ⟨rfl, ?_⟩
  rw [lastPathArg_concat]
  simp

theorem noLBS_append_of_clean {later a b : String} {t1 t2 : Trace}
    (h1 : cleanOf [later, a] t1 = true)
    (h2 : noLaterBeforeSeq later a b t2 = true) :
    noLaterBeforeSeq later a b (t1 ++ t2) = true := by
  rw [noLBS_append_clean h1]
  exact h2

set_option maxHeartbeats 1000000 in
/-- C1: in each pipeline orchestrator (`count`, `count_smartseq3`,
`count_velocity`) the stages are sequenced sort → correct → capture →
count → quant: no `bustools correct` runs before the first
`bustools sort`, and the first sort on the raw `output.bus` precedes any
correct; `count` never invokes `bustools capture`, while in the
Smart-seq3 and velocity pipelines every capture is preceded by a correct
followed by a re-sort, and no `bustools count` runs before the first
capture; finally `kallisto quant-tcc` only ever runs after a
`bustools count` (and never at all in `count_velocity`). -/
theorem C1_stage_ordering (env : Env) (o : Oracle) (a : CountArgs)
    (a3 : Ss3Args) (av : VelArgs) :
    (noLaterBeforeEarlier "correct" "sort" (count env o a).2 = true
      ∧ rawSortBeforeCorrect (joinPath a.out_dir BUS_FILENAME) (count env o a).2 = true
      ∧ cleanOf ["capture"] (count env o a).2 = true
      ∧ noLaterBeforeEarlier "quant-tcc" "count" (count env o a).2 = true)
    ∧ (noLaterBeforeEarlier "correct" "sort" (count_smartseq3 env o a3).2 = true
      ∧ rawSortBeforeCorrect (joinPath a3.out_dir BUS_FILENAME) (count_smartseq3 env o a3).2 = true
      ∧ noLaterBeforeSeq "capture" "correct" "sort" (count_smartseq3 env o a3).2 = true
      ∧ noLaterBeforeEarlier "count" "capture" (count_smartseq3 env o a3).2 = true
      ∧ noLaterBeforeEarlier "quant-tcc" "count" (count_smartseq3 env o a3).2 = true)
    ∧ (noLaterBeforeEarlier "correct" "sort" (count_velocity env o av).2 = true
      ∧ rawSortBeforeCorrect (joinPath av.out_dir BUS_FILENAME) (count_velocity env o av).2 = true
      ∧ noLaterBeforeSeq "capture" "correct" "sort" (count_velocity env o av).2 = true
      ∧ noLaterBeforeEarlier "count" "capture" (count_velocity env o av).2 = true
      ∧ noLaterBeforeEarlier "quant-tcc" "count" (count_velocity env o av).2 = true) := by
  refine ⟨⟨?_, ?_, ?_, ?_⟩, ⟨?_, ?_, ?_, ?_, ?_⟩, ⟨?_, ?_, ?_, ?_, ?_⟩⟩
  · simp only [count, List.append_assoc]
    refine noLBE_append_of_clean_later
      (countBusPart_clean env o a (by decide) (by decide) (by decide) (by decide)) ?_
    exact noLBE_cons_earlier rfl
  · simp only [count, List.append_assoc, countBusPart_bus]
    refine rawSBC_append_clean
      (countBusPart_clean env o a (by decide) (by decide) (by decide) (by decide)) ?_
    exact rawSBC_sort_head
  · simp only [count, List.append_assoc]
    refine cleanOf_mono
      (countBusPart_clean env o a (by decide) (by decide) (by decide) (by decide)) ?_
    refine cleanOf_mono (bustools_sort_clean (by decide)) ?_
    refine cleanOf_mono ?_ ?_
    · cases hg : a.whitelist_path.isNone && !a.fastqs.isBatch
      · simp only [Bool.false_eq_true, if_false]
        rfl
      · simp only [eq_self_iff_true, if_true]
        exact copy_or_create_whitelist_clean env _ _ _ (by decide)
    refine cleanOf_mono ?_ ?_
    · cases hfb : a.FB
      · simp only [Bool.false_eq_true, if_false]
        rfl
      · simp only [eq_self_iff_true, if_true]
        exact cleanOf_mono (bustools_project_clean (by decide))
          (bustools_sort_clean (by decide))
    refine cleanOf_mono ?_ ?_
    · cases hins : a.inspect
      · simp only [Bool.false_eq_true, if_false]
        rfl
      · simp only [eq_self_iff_true, if_true]
        exact bustools_inspect_clean (by decide)
    refine cleanOf_mono ?_ ?_
    · cases hb : a.fastqs.isBatch
      · simp only [Bool.not_false, eq_self_iff_true, if_true]
        exact cleanOf_mono (bustools_correct_clean (by decide))
          (bustools_sort_clean (by decide))
      · simp only [Bool.not_true, Bool.false_eq_true, if_false]
        rfl
    refine cleanOf_mono (bustools_count_stage_clean (by decide)) ?_
    refine cleanOf_mono ?_ ?_
    · cases hq : isCmTech a.technology && a.tcc
      · simp only [Bool.false_eq_true, if_false]
        rfl
      · simp only [eq_self_iff_true, if_true]
        exact kallisto_quant_tcc_clean (by decide)
    refine cleanOf_mono ?_ ?_
    · cases hc : a.loom || a.h5ad
      · simp only [Bool.false_eq_true, if_false]
        rfl
      · simp only [eq_self_iff_true, if_true]
        exact convert_matrix_clean _ _ _ _ _ _
    refine cleanOf_mono ?_ ?_
    · cases hcr : a.cellranger
      · simp only [Bool.false_eq_true, if_false]
        rfl
      · simp only [eq_self_iff_true, if_true]
        exact matrix_to_cellranger_clean o _ _ _ _ _ _
    exact countFilterPart_clean env o a _ _ _
      (by decide) (by decide) (by decide) (by decide)
  · simp only [count, List.append_assoc]
    refine noLBE_append_of_clean_later
      (countBusPart_clean env o a (by decide) (by decide) (by decide) (by decide)) ?_
    refine noLBE_append_of_clean_later (bustools_sort_clean (by decide)) ?_
    refine noLBE_append_of_clean_later ?_ ?_
    · cases hg : a.whitelist_path.isNone && !a.fastqs.isBatch
      · simp only [Bool.false_eq_true, if_false]
        rfl
      · simp only [eq_self_iff_true, if_true]
        exact copy_or_create_whitelist_clean env _ _ _ (by decide)
    refine noLBE_append_of_clean_later ?_ ?_
    · cases hfb : a.FB
      · simp only [Bool.false_eq_true, if_false]
        rfl
      · simp only [eq_self_iff_true, if_true]
        exact cleanOf_mono (bustools_project_clean (by decide))
          (bustools_sort_clean (by decide))
    refine noLBE_append_of_clean_later ?_ ?_
    · cases hins : a.inspect
      · simp only [Bool.false_eq_true, if_false]
        rfl
      · simp only [eq_self_iff_true, if_true]
        exact bustools_inspect_clean (by decide)
    refine noLBE_append_of_clean_later ?_ ?_
    · cases hb : a.fastqs.isBatch
      · simp only [Bool.not_false, eq_self_iff_true, if_true]
        exact cleanOf_mono (bustools_correct_clean (by decide))
          (bustools_sort_clean (by decide))
      · simp only [Bool.not_true, Bool.false_eq_true, if_false]
        rfl
    exact noLBE_cons_earlier rfl
  · simp only [count_smartseq3, List.append_assoc]
    refine noLBE_append_of_clean_later
      (ss3BusPart_clean env o a3 (by decide) (by decide) (by decide) (by decide)) ?_
    exact noLBE_cons_earlier rfl
  · simp only [count_smartseq3, List.append_assoc, ss3BusPart_bus]
    refine rawSBC_append_clean
      (ss3BusPart_clean env o a3 (by decide) (by decide) (by decide) (by decide)) ?_
    exact rawSBC_sort_head
  · simp only [count_smartseq3, List.append_assoc]
    refine noLBS_append_of_clean
      (ss3BusPart_clean env o a3 (by decide) (by decide) (by decide) (by decide)) ?_
    refine noLBS_append_of_clean (bustools_sort_clean (by decide)) ?_
    refine noLBS_append_of_clean
      (copy_or_create_whitelist_clean env _ _ _ (by decide)) ?_
    refine noLBS_append_of_clean ?_ ?_
    · cases hins : a3.inspect
      · simp only [Bool.false_eq_true, if_false]
        rfl
      · simp only [eq_self_iff_true, if_true]
        exact bustools_inspect_clean (by decide)
    refine (noLBS_cons_a ?_ ?_).trans (noLBE_cons_earlier ?_) <;> rfl
  · simp only [count_smartseq3, List.append_assoc]
    refine noLBE_append_of_clean_later
      (ss3BusPart_clean env o a3 (by decide) (by decide) (by decide) (by decide)) ?_
    refine noLBE_append_of_clean_later (bustools_sort_clean (by decide)) ?_
    refine noLBE_append_of_clean_later
      (copy_or_create_whitelist_clean env _ _ _ (by decide)) ?_
    refine noLBE_append_of_clean_later ?_ ?_
    · cases hins : a3.inspect
      · simp only [Bool.false_eq_true, if_false]
        rfl
      · simp only [eq_self_iff_true, if_true]
        exact bustools_inspect_clean (by decide)
    refine noLBE_append_of_clean_later (bustools_correct_clean (by decide)) ?_
    refine noLBE_append_of_clean_later (bustools_sort_clean (by decide)) ?_
    refine noLBE_append_of_clean_later cleanOf_single_write ?_
    exact noLBE_cons_earlier rfl
  · simp only [count_smartseq3, List.append_assoc]
    refine noLBE_append_of_clean_later
      (ss3BusPart_clean env o a3 (by decide) (by decide) (by decide) (by decide)) ?_
    refine noLBE_append_of_clean_later (bustools_sort_clean (by decide)) ?_
    refine noLBE_append_of_clean_later
      (copy_or_create_whitelist_clean env _ _ _ (by decide)) ?_
    refine noLBE_append_of_clean_later ?_ ?_
    · cases hins : a3.inspect
      · simp only [Bool.false_eq_true, if_false]
        rfl
      · simp only [eq_self_iff_true, if_true]
        exact bustools_inspect_clean (by decide)
    refine noLBE_append_of_clean_later (bustools_correct_clean (by decide)) ?_
    refine noLBE_append_of_clean_later (bustools_sort_clean (by decide)) ?_
    refine noLBE_append_of_clean_later cleanOf_single_write ?_
    refine noLBE_append_of_clean_later (bustools_capture_clean (by decide)) ?_
    refine noLBE_append_of_clean_later (bustools_capture_clean (by decide)) ?_
    exact noLBE_cons_earlier rfl
  · simp only [count_velocity, List.append_assoc]
    refine noLBE_append_of_clean_later
      (velBusPart_clean env o av (by decide) (by decide) (by decide) (by decide)) ?_
    exact noLBE_cons_earlier rfl
  · simp only [count_velocity, List.append_assoc, velBusPart_bus]
    refine rawSBC_append_clean
      (velBusPart_clean env o av (by decide) (by decide) (by decide) (by decide)) ?_
    exact rawSBC_sort_head
  · simp only [count_velocity, List.append_assoc]
    refine noLBS_append_of_clean
      (velBusPart_clean env o av (by decide) (by decide) (by decide) (by decide)) ?_
    refine noLBS_append_of_clean (bustools_sort_clean (by decide)) ?_
    refine noLBS_append_of_clean ?_ ?_
    · cases hg : av.whitelist_path.isNone
      · simp only [Bool.false_eq_true, if_false]
        rfl
      · simp only [eq_self_iff_true, if_true]
        exact copy_or_create_whitelist_clean env _ _ _ (by decide)
    refine noLBS_append_of_clean ?_ ?_
    · cases hins : av.inspect
      · simp only [Bool.false_eq_true, if_false]
        rfl
      · simp only [eq_self_iff_true, if_true]
        exact bustools_inspect_clean (by decide)
    refine (noLBS_cons_a ?_ ?_).trans (noLBE_cons_earlier ?_) <;> rfl
  · simp only [count_velocity, List.append_assoc]
    refine noLBE_append_of_clean_later
      (velBusPart_clean env o av (by decide) (by decide) (by decide) (by decide)) ?_
    refine noLBE_append_of_clean_later (bustools_sort_clean (by decide)) ?_
    refine noLBE_append_of_clean_later ?_ ?_
    · cases hg : av.whitelist_path.isNone
      · simp only [Bool.false_eq_true, if_false]
        rfl
      · simp only [eq_self_iff_true, if_true]
        exact copy_or_create_whitelist_clean env _ _ _ (by decide)
    refine noLBE_append_of_clean_later ?_ ?_
    · cases hins : av.inspect
      · simp only [Bool.false_eq_true, if_false]
        rfl
      · simp only [eq_self_iff_true, if_true]
        exact bustools_inspect_clean (by decide)
    refine noLBE_append_of_clean_later (bustools_correct_clean (by decide)) ?_
    refine noLBE_append_of_clean_later (bustools_sort_clean (by decide)) ?_
    exact noLBE_cons_earlier rfl
  · refine noLBE_of_clean ?_
    simp only [count_velocity, List.append_assoc]
    refine cleanOf_mono
      (velBusPart_clean env o av (by decide) (by decide) (by decide) (by decide)) ?_
    refine cleanOf_mono (bustools_sort_clean (by decide)) ?_
    refine cleanOf_mono ?_ ?_
    · cases hg : av.whitelist_path.isNone
      · simp only [Bool.false_eq_true, if_false]
        rfl
      · simp only [eq_self_iff_true, if_true]
        exact copy_or_create_whitelist_clean env _ _ _ (by decide)
    refine cleanOf_mono ?_ ?_
    · cases hins : av.inspect
      · simp only [Bool.false_eq_true, if_false]
        rfl
      · simp only [eq_self_iff_true, if_true]
        exact bustools_inspect_clean (by decide)
    refine cleanOf_mono (bustools_correct_clean (by decide)) ?_
    refine cleanOf_mono (bustools_sort_clean (by decide)) ?_
    refine cleanOf_mono (velocityPass_clean env o av _ _ _ _ _ _
      (by decide) (by decide) (by decide) (by decide)) ?_
    refine cleanOf_mono (velocityPass_clean env o av _ _ _ _ _ _
      (by decide) (by decide) (by decide) (by decide)) ?_
    refine cleanOf_mono ?_ ?_
    · cases hc : av.loom || av.h5ad
      · simp only [Bool.false_eq_true, if_false]
        rfl
      · simp only [eq_self_iff_true, if_true]
        exact convert_matrices_clean _ _ _ _ _ _
    exact velocityFilterPart_clean env o av _ _ _
      (by decide) (by decide) (by decide) (by decide) (by decide)

theorem find_stage_append_clean {s : String} {t1 t2 : Trace}
    (h : cleanOf [s] t1 = true) :
    (t1 ++ t2).find? (isStage s) = t2.find? (isStage s) := by
  induction t1 with
  | nil => rfl
  | cons e t ih =>
    rcases cleanOf_cons_iff.mp h with ⟨he, ht⟩
    have hs : isStage s e = false := stage_false_of_clean (by simp) he
    rw [List.cons_append, List.find?_cons_of_neg _ (by simp [hs])]
    exact ih ht

theorem firstStage_append_of_clean {s : String} {t1 t2 : Trace}
    {r : Option (List Arg)} (h1 : cleanOf [s] t1 = true)
    (h2 : firstStageCmd s t2 = r) : firstStageCmd s (t1 ++ t2) = r := by
  unfold firstStageCmd at h2 ⊢
  rw [find_stage_append_clean h1]
  exact h2

theorem firstStage_cons_hit {s : String} {args : List Arg} {t : Trace}
    (h : isStage s (Event.cmd args) = true) :
    firstStageCmd s (Event.cmd args :: t) = some args := by
  unfold firstStageCmd
  rw [List.find?_cons_of_pos _ h]

theorem any_stage_false_of_clean {s : String} {t : Trace}
    (h : cleanOf [s] t = true) : t.any (isStage s) = false := by
  induction t with
  | nil => rfl
  | cons e t ih =>
    rcases cleanOf_cons_iff.mp h with ⟨he, ht⟩
    have hs : isStage s e = false := stage_false_of_clean (by simp) he
    simp [List.any_cons, hs, ih ht]

theorem any_append_right {p : Event → Bool} {t1 t2 : Trace}
    (h : t2.any p = true) : (t1 ++ t2).any p = true := by
  simp [List.any_append, h]

theorem any_cons_hit {p : Event → Bool} {e : Event} {t : Trace}
    (h : p e = true) : (e :: t).any p = true := by
  simp [List.any_cons, h]

theorem busTechOk_mono {t1 t2 : Trace} {e : Option Arg}
    (h1 : busTechOk t1 e = true) (h2 : busTechOk t2 e = true) :
    busTechOk (t1 ++ t2) e = true := by
  unfold busTechOk at h1 h2 ⊢
  rw [cmds_append, List.all_append, h1, h2]
  rfl

theorem busTechOk_single {c : List Arg} {e : Option Arg}
    (h : (!(c.get? 1 == some (Arg.lit "bus")) || (argAfterX c == e)) = true) :
    busTechOk [Event.cmd c] e = true := by
  simp [busTechOk, cmds, List.filterMap_cons]
  simpa using h

theorem cmds_cons_read (p : String) (t : Trace) :
    cmds (Event.read p :: t) = cmds t := rfl

theorem cmds_map_read (l : List String) (f : String → String) :
    cmds (l.map (fun d => Event.read (f d))) = [] := by
  induction l with
  | nil => rfl
  | cons x xs ih =>
    rw [List.map_cons, cmds_cons_read]
    exact ih

theorem cmds_map_read_id (l : List String) :
    cmds (l.map Event.read) = [] := by
  induction l with
  | nil => rfl
  | cons x xs ih =>
    rw [List.map_cons, cmds_cons_read]
    exact ih

theorem busTechOk_reads {l : List String} {f : String → String} {e : Option Arg} :
    busTechOk (l.map (fun d => Event.read (f d))) e = true := by
  unfold busTechOk
  rw [cmds_map_read]
  rfl

theorem busTechOk_reads_id {l : List String} {e : Option Arg} :
    busTechOk (l.map Event.read) e = true := by
  unfold busTechOk
  rw [cmds_map_read_id]
  rfl

theorem busTechOk_flatten {L : List Trace} {e : Option Arg}
    (h : ∀ t ∈ L, busTechOk t e = true) : busTechOk L.flatten e = true := by
  induction L with
  | nil => rfl
  | cons t rest ih =>
    rw [List.flatten_cons]
    exact busTechOk_mono (h t (List.mem_cons_self t rest))
      (ih fun x hx => h x (List.mem_cons_of_mem t hx))

theorem beq_argAfterX {c : List Arg} {e : Option Arg}
    (h : argAfterX c = e) : (argAfterX c == e) = true := by
  rw [h]
  simp

theorem kallisto_bus_files_busTech {env : Env} {fq : List String}
    {idx tech od : String} {th : Nat} {n k pr : Bool} {s : Option String} :
    busTechOk (kallisto_bus env (.files fq) idx tech od th n k pr s).2
      (some (Arg.sym tech)) = true := by
  refine busTechOk_single ?_
  rw [Bool.or_eq_true]
  exact Or.inr (beq_argAfterX rfl)

theorem busTechOk_m2c {o : Oracle} {m b g t od : String} {e : Option Arg} :
    busTechOk (matrix_to_cellranger o m b g t od).2 e = true := rfl

theorem busTechOk_convert_matrix {cd mp bp : String} {l h : Bool}
    {e : Option Arg} : busTechOk (convert_matrix cd mp bp l h).2 e = true := by
  cases l <;> cases h <;> rfl

theorem busTechOk_convert_matrices {cd : String} {mp bp : List String}
    {l h : Bool} {e : Option Arg} :
    busTechOk (convert_matrices cd mp bp l h).2 e = true := by
  cases l <;> cases h <;>
    exact busTechOk_mono
      (busTechOk_mono (busTechOk_mono busTechOk_reads_id busTechOk_reads_id) rfl) rfl

theorem busTechOk_copy_or_create {env : Env} {t b od : String} {e : Option Arg} :
    busTechOk (copy_or_create_whitelist env t b od).2 e = true := by
  unfold copy_or_create_whitelist
  split
  · rfl
  · rfl

theorem busTechOk_filter_with_bustools {env : Env} {o : Oracle}
    {bus ec tx t2g wl fb : String} {ft : Option Nat} {cp : String}
    {tcc mm kite : Bool} {td : String} {th : Nat} {mem : String}
    {cnt loom h5ad cr ug em : Bool} {e : Option Arg} :
    busTechOk (filter_with_bustools env o bus ec tx t2g wl fb ft cp tcc mm
      kite td th mem cnt loom h5ad cr ug em).2 e = true := by
  unfold filter_with_bustools
  refine busTechOk_mono (busTechOk_mono (busTechOk_mono ?_ ?_) ?_) ?_
  · rfl
  · rfl
  · rfl
  · split
    · refine busTechOk_mono (busTechOk_mono ?_ ?_) ?_
      · rfl
      · split
        · exact busTechOk_convert_matrix
        · rfl
      · split
        · exact busTechOk_m2c
        · rfl
    · rfl

theorem busTechOk_countFilterPart {env : Env} {o : Oracle} {a : CountArgs}
    {cb ec tx : String} {e : Option Arg} :
    busTechOk (countFilterPart env o a cb ec tx).2 e = true := by
  unfold countFilterPart
  split
  · exact busTechOk_filter_with_bustools
  · rfl

theorem splitSeg_busTech (env : Env) (tech td : String) (th : Nat)
    (mem : String) (pr : Bool) (s : Option String) (cnt i : Nat)
    (idx : String) (fq : List String) :
    busTechOk (splitSeg env tech td th mem pr s cnt i idx fq)
      (some (Arg.sym tech)) = true := by
  refine busTechOk_mono (busTechOk_mono ?_ ?_) ?_
  · exact kallisto_bus_files_busTech
  · rfl
  · rfl

theorem split_trace_busTech (env : Env) (o : Oracle) (fq idx : List String)
    (tech od td : String) (th : Nat) (mem : String) (pr : Bool)
    (s : Option String) (n0 : Nat) :
    busTechOk (kallisto_bus_split env o fq idx tech od td th mem pr s n0).2.2
      (some (Arg.sym tech)) = true := by
  rw [kallisto_bus_split_eq]
  refine busTechOk_mono (busTechOk_mono (busTechOk_mono (busTechOk_mono
    (busTechOk_mono ?_ ?_) ?_) ?_) ?_) ?_
  · refine busTechOk_flatten ?_
    intro t ht
    obtain ⟨j, hj, rfl⟩ := List.mem_map.mp ht
    exact splitSeg_busTech env tech td th mem pr s (n0 + j) j (idx.getD j "")
      (streamedN td fq (j + 1))
  · refine busTechOk_mono (busTechOk_mono ?_ ?_) ?_
    · rfl
    · exact busTechOk_reads
    · rfl
  · rfl
  · rfl
  · rfl
  · rfl

theorem countBusPart_busTech (env : Env) (o : Oracle) (a : CountArgs)
    (hb : a.fastqs.isBatch = false) :
    busTechOk (countBusPart env o a).2
      (some (Arg.sym (countTechSub a.technology))) = true := by
  simp only [countBusPart]
  cases hrun : countRunBus env a
  · simp only [Bool.false_eq_true, if_false]
    rfl
  · simp only [eq_self_iff_true, if_true]
    by_cases hlen : a.index_paths.length > 1
    · rw [if_pos hlen]
      exact split_trace_busTech env o _ _ _ _ _ _ _ _ _ _
    · rw [if_neg hlen, hb]
      simp only [Bool.false_eq_true, if_false]
      exact kallisto_bus_files_busTech

set_option maxHeartbeats 1000000 in
/-- C3: in `count` the counting branch is selected by technology type:
the first `bustools count` invocation carries the `--cm` flag exactly when
the technology, compared case-insensitively, is `BULK` or `SMARTSEQ2`
(`isCmTech`, whose definition is exactly that comparison);
`kallisto quant-tcc` runs exactly when such a technology is combined with
`tcc=True`; and every `kallisto bus` command's `-x` argument is the
substituted technology string, where `SMARTSEQ2` is substituted by
`BULK`. -/
theorem C3_count_technology_branching (env : Env) (o : Oracle) (a : CountArgs) :
    (∃ c, firstStageCmd "count" (count env o a).2 = some c
       ∧ (Arg.lit "--cm" ∈ c ↔ isCmTech a.technology = true))
    ∧ (count env o a).2.any (isStage "quant-tcc") = (isCmTech a.technology && a.tcc)
    ∧ (a.fastqs.isBatch = false →
        busTechOk (count env o a).2
          (some (Arg.sym (countTechSub a.technology))) = true)
    ∧ isCmTech a.technology
        = (a.technology.toUpper == "BULK" || a.technology.toUpper == "SMARTSEQ2")
    ∧ (∀ t : String,
        countTechSub t = if t.toUpper == "SMARTSEQ2" then "BULK" else t) := by
  refine ⟨?_, ?_, ?_, rfl, fun t => rfl⟩
  · refine ⟨?w, ?h1, ?h2⟩
    case h1 =>
      simp only [count, List.append_assoc]
      refine firstStage_append_of_clean
        (countBusPart_clean env o a (by decide) (by decide) (by decide) (by decide)) ?_
      refine firstStage_append_of_clean (bustools_sort_clean (by decide)) ?_
      refine firstStage_append_of_clean ?_ ?_
      · cases hg : a.whitelist_path.isNone && !a.fastqs.isBatch
        · simp only [Bool.false_eq_true, if_false]
          rfl
        · simp only [eq_self_iff_true, if_true]
          exact copy_or_create_whitelist_clean env _ _ _ (by decide)
      refine firstStage_append_of_clean ?_ ?_
      · cases hfb : a.FB
        · simp only [Bool.false_eq_true, if_false]
          rfl
        · simp only [eq_self_iff_true, if_true]
          exact cleanOf_mono (bustools_project_clean (by decide))
            (bustools_sort_clean (by decide))
      refine firstStage_append_of_clean ?_ ?_
      · cases hins : a.inspect
        · simp only [Bool.false_eq_true, if_false]
          rfl
        · simp only [eq_self_iff_true, if_true]
          exact bustools_inspect_clean (by decide)
      refine firstStage_append_of_clean ?_ ?_
      · cases hb : a.fastqs.isBatch
        · simp only [Bool.not_false, eq_self_iff_true, if_true]
          exact cleanOf_mono (bustools_correct_clean (by decide))
            (bustools_sort_clean (by decide))
        · simp only [Bool.not_true, Bool.false_eq_true, if_false]
          rfl
      refine firstStage_cons_hit ?_
      rfl
    case h2 =>
      cases hcm : isCmTech a.technology <;> cases a.tcc <;> cases a.mm <;>
        cases a.umi_gene <;> cases a.em <;> simp
  · simp only [count, List.append_assoc]
    cases hq : isCmTech a.technology && a.tcc
    · refine any_stage_false_of_clean ?_
      refine cleanOf_mono
        (countBusPart_clean env o a (by decide) (by decide) (by decide) (by decide)) ?_
      refine cleanOf_mono (bustools_sort_clean (by decide)) ?_
      refine cleanOf_mono ?_ ?_
      · cases hg : a.whitelist_path.isNone && !a.fastqs.isBatch
        · simp only [Bool.false_eq_true, if_false]
          rfl
        · simp only [eq_self_iff_true, if_true]
          exact copy_or_create_whitelist_clean env _ _ _ (by decide)
      refine cleanOf_mono ?_ ?_
      · cases hfb : a.FB
        · simp only [Bool.false_eq_true, if_false]
          rfl
        · simp only [eq_self_iff_true, if_true]
          exact cleanOf_mono (bustools_project_clean (by decide))
            (bustools_sort_clean (by decide))
      refine cleanOf_mono ?_ ?_
      · cases hins : a.inspect
        · simp only [Bool.false_eq_true, if_false]
          rfl
        · simp only [eq_self_iff_true, if_true]
          exact bustools_inspect_clean (by decide)
      refine cleanOf_mono ?_ ?_
      · cases hb : a.fastqs.isBatch
        · simp only [Bool.not_false, eq_self_iff_true, if_true]
          exact cleanOf_mono (bustools_correct_clean (by decide))
            (bustools_sort_clean (by decide))
        · simp only [Bool.not_true, Bool.false_eq_true, if_false]
          rfl
      refine cleanOf_mono (bustools_count_stage_clean (by decide)) ?_
      refine cleanOf_mono ?_ ?_
      · simp only [Bool.false_eq_true, if_false]
        rfl
      refine cleanOf_mono ?_ ?_
      · cases hc : a.loom || a.h5ad
        · simp only [Bool.false_eq_true, if_false]
          rfl
        · simp only [eq_self_iff_true, if_true]
          exact convert_matrix_clean _ _ _ _ _ _
      refine cleanOf_mono ?_ ?_
      · cases hcr : a.cellranger
        · simp only [Bool.false_eq_true, if_false]
          rfl
        · simp only [eq_self_iff_true, if_true]
          exact matrix_to_cellranger_clean o _ _ _ _ _ _
      exact countFilterPart_clean env o a _ _ _
        (by decide) (by decide) (by decide) (by decide)
    · refine any_append_right ?_
      refine any_append_right ?_
      refine any_append_right ?_
      refine any_append_right ?_
      refine any_append_right ?_
      refine any_append_right ?_
      refine any_append_right ?_
      simp only [eq_self_iff_true, if_true]
      exact any_cons_hit rfl
  · intro hb
    simp only [count, List.append_assoc]
    refine busTechOk_mono (countBusPart_busTech env o a hb) ?_
    refine busTechOk_mono ?_ ?_
    · rfl
    refine busTechOk_mono ?_ ?_
    · cases hg : a.whitelist_path.isNone && !a.fastqs.isBatch
      · simp only [Bool.false_eq_true, if_false]
        rfl
      · simp only [eq_self_iff_true, if_true]
        exact busTechOk_copy_or_create
    refine busTechOk_mono ?_ ?_
    · cases hfb : a.FB
      · simp only [Bool.false_eq_true, if_false]
        rfl
      · simp only [eq_self_iff_true, if_true]
        exact busTechOk_mono rfl rfl
    refine busTechOk_mono ?_ ?_
    · cases hins : a.inspect
      · simp only [Bool.false_eq_true, if_false]
        rfl
      · simp only [eq_self_iff_true, if_true]
        rfl
    refine busTechOk_mono ?_ ?_
    · rw [hb]
      simp only [Bool.not_false, eq_self_iff_true, if_true]
      exact busTechOk_mono rfl rfl
    refine busTechOk_mono ?_ ?_
    · rfl
    refine busTechOk_mono ?_ ?_
    · cases hq : isCmTech a.technology && a.tcc
      · simp only [Bool.false_eq_true, if_false]
        rfl
      · simp only [eq_self_iff_true, if_true]
        rfl
    refine busTechOk_mono ?_ ?_
    · cases hc : a.loom || a.h5ad
      · simp only [Bool.false_eq_true, if_false]
        rfl
      · simp only [eq_self_iff_true, if_true]
        exact busTechOk_convert_matrix
    refine busTechOk_mono ?_ ?_
    · cases hcr : a.cellranger
      · simp only [Bool.false_eq_true, if_false]
        rfl
      · simp only [eq_self_iff_true, if_true]
        exact busTechOk_m2c
    exact busTechOk_countFilterPart

/-- Witness: the `-x` technology conjunct of C3 applied to a concrete
non-batch invocation, the non-batch hypothesis discharged by `rfl`. -/
theorem C3_count_technology_branching_witness :
    busTechOk (count envW oW countArgsW).2
      (some (Arg.sym (countTechSub countArgsW.technology))) = true :=
  (C3_count_technology_branching envW oW countArgsW).2.2.1 rfl

set_option maxHeartbeats 1000000 in
/-- C7: when `count` is called with `whitelist_path=None` on a non-batch
fastq list, the pipeline obtains a whitelist — generating one with
`bustools whitelist` from the sorted BUS file into `out_dir` when none is
pre-packaged for the technology, copying the pre-packaged one otherwise —
and exactly that whitelist path is passed via `-w` to `bustools correct`. -/
theorem C7_whitelist_flow (env : Env) (o : Oracle) (a : CountArgs)
    (hw : a.whitelist_path = none) (hb : a.fastqs.isBatch = false) :
    (env.whitelist_provided a.technology = false →
      firstStageCmd "whitelist" (count env o a).2
        = some ([Arg.sym env.bustools_path, Arg.lit "whitelist"]
            ++ [Arg.lit "-o", Arg.path (joinPath a.out_dir WHITELIST_FILENAME)]
            ++ [Arg.path (joinPath a.temp_dir
                  (env.update_filename (basename (joinPath a.out_dir BUS_FILENAME))
                    SORT_CODE))]))
    ∧ (∃ c, firstStageCmd "correct" (count env o a).2 = some c
        ∧ [Arg.lit "-w",
            Arg.path (copy_or_create_whitelist env a.technology
              (joinPath a.temp_dir
                (env.update_filename (basename (joinPath a.out_dir BUS_FILENAME))
                  SORT_CODE))
              a.out_dir).1] <:+: c)
    ∧ (∀ t b od : String,
        (copy_or_create_whitelist env t b od).1
          = if env.whitelist_provided t = true then env.copy_whitelist t od
            else joinPath od WHITELIST_FILENAME) := by
  refine ⟨?_, ?_, ?_⟩
  · intro hprov
    simp only [count, List.append_assoc, countBusPart_bus]
    refine firstStage_append_of_clean
      (countBusPart_clean env o a (by decide) (by decide) (by decide) (by decide)) ?_
    refine firstStage_append_of_clean (bustools_sort_clean (by decide)) ?_
    rw [hw, hb]
    simp only [Option.isNone_none, Bool.not_false, Bool.and_self,
      eq_self_iff_true, if_true]
    simp only [copy_or_create_whitelist, hprov, Bool.false_eq_true, if_false]
    refine firstStage_cons_hit ?_
    rfl
  · simp only [count, List.append_assoc, countBusPart_bus]
    refine ⟨?w2, ?g1, ?g2⟩
    case g1 =>
      refine firstStage_append_of_clean
        (countBusPart_clean env o a (by decide) (by decide) (by decide) (by decide)) ?_
      refine firstStage_append_of_clean (bustools_sort_clean (by decide)) ?_
      rw [hw, hb]
      simp only [Option.isNone_none, Bool.not_false, Bool.and_self,
        eq_self_iff_true, if_true]
      refine firstStage_append_of_clean
        (copy_or_create_whitelist_clean env _ _ _ (by decide)) ?_
      refine firstStage_append_of_clean ?_ ?_
      · cases hfb : a.FB
        · simp only [Bool.false_eq_true, if_false]
          rfl
        · simp only [eq_self_iff_true, if_true]
          exact cleanOf_mono (bustools_project_clean (by decide))
            (bustools_sort_clean (by decide))
      refine firstStage_append_of_clean ?_ ?_
      · cases hins : a.inspect
        · simp only [Bool.false_eq_true, if_false]
          rfl
        · simp only [eq_self_iff_true, if_true]
          exact bustools_inspect_clean (by decide)
      refine firstStage_cons_hit ?_
      rfl
    case g2 =>
      exact List.infix_append _ _ _
  · intro t b od
    unfold copy_or_create_whitelist
    split
    · rfl
    · rfl

/-- Witness: C7 at a concrete invocation with no pre-packaged whitelist:
the generated whitelist in `out` is the `-w` argument of the correct
command. -/
theorem C7_whitelist_flow_witness :
    firstStageCmd "whitelist" (count envW oW countArgsW).2
        = some ([Arg.sym "bustools", Arg.lit "whitelist"]
            ++ [Arg.lit "-o", Arg.path (joinPath "out" WHITELIST_FILENAME)]
            ++ [Arg.path (joinPath "tmp"
                  (envW.update_filename (basename (joinPath "out" BUS_FILENAME))
                    SORT_CODE))])
      ∧ ∃ c, firstStageCmd "correct" (count envW oW countArgsW).2 = some c
          ∧ [Arg.lit "-w", Arg.path (joinPath "out" WHITELIST_FILENAME)] <:+: c :=
  ⟨(C7_whitelist_flow envW oW countArgsW rfl rfl).1 rfl,
   (C7_whitelist_flow envW oW countArgsW rfl rfl).2.1⟩

theorem fst_ite {α β : Type} (c : Prop) [h : Decidable c] (p q : α × β) :
    (if c then p else q).1 = if c then p.1 else q.1 := by
  split <;> rfl

theorem snd_ite {α β : Type} (c : Prop) [h : Decidable c] (p q : α × β) :
    (if c then p else q).2 = if c then p.2 else q.2 := by
  split <;> rfl

theorem cmds_ite (c : Prop) [h : Decidable c] (t1 t2 : Trace) :
    cmds (if c then t1 else t2) = if c then cmds t1 else cmds t2 := by
  split <;> rfl

theorem m2c_fst_congr (o1 o2 : Oracle) (m b g t od : String) :
    (matrix_to_cellranger o1 m b g t od).1
      = (matrix_to_cellranger o2 m b g t od).1 := rfl

theorem m2c_cmds (o : Oracle) (m b g t od : String) :
    cmds (matrix_to_cellranger o m b g t od).2 = [] := rfl

theorem stream_batch_fst (o : Oracle) (bp td : String) (n : Nat) :
    (stream_batch o bp td n).1 = tmpFile td n := rfl

theorem stream_batch_cmds (o : Oracle) (bp td : String) (n : Nat) :
    cmds (stream_batch o bp td n).2 = [] := rfl

theorem bustools_mash_cmds (env : Env) (o : Oracle) (dirs : List String)
    (od : String) :
    cmds (bustools_mash env o dirs od).2
      = [[Arg.sym env.bustools_path, Arg.lit "mash"]
          ++ [Arg.lit "-o", Arg.path od] ++ dirs.map Arg.path] := by
  simp only [bustools_mash]
  rw [cmds_append, cmds_append, cmds_map_read]
  rfl

theorem kallisto_bus_split_fst_congr (env : Env) (o1 o2 : Oracle)
    (fq idx : List String) (tech od td : String) (th : Nat) (mem : String)
    (pr : Bool) (s : Option String) (n0 : Nat) :
    (kallisto_bus_split env o1 fq idx tech od td th mem pr s n0).1
      = (kallisto_bus_split env o2 fq idx tech od td th mem pr s n0).1 := by
  rw [kallisto_bus_split_eq, kallisto_bus_split_eq]

theorem kallisto_bus_split_cmds_congr (env : Env) (o1 o2 : Oracle)
    (fq idx : List String) (tech od td : String) (th : Nat) (mem : String)
    (pr : Bool) (s : Option String) (n0 : Nat) :
    cmds (kallisto_bus_split env o1 fq idx tech od td th mem pr s n0).2.2
      = cmds (kallisto_bus_split env o2 fq idx tech od td th mem pr s n0).2.2 := by
  rw [kallisto_bus_split_eq, kallisto_bus_split_eq]
  simp only [cmds_append, bustools_mash_cmds]

theorem filter_fst_congr (env : Env) (o1 o2 : Oracle)
    (bus ec tx t2g wl fb : String) (ft : Option Nat) (cp : String)
    (tcc mm kite : Bool) (td : String) (th : Nat) (mem : String)
    (cnt loom h5ad cr ug em : Bool) :
    (filter_with_bustools env o1 bus ec tx t2g wl fb ft cp tcc mm kite td th
        mem cnt loom h5ad cr ug em).1
      = (filter_with_bustools env o2 bus ec tx t2g wl fb ft cp tcc mm kite td
        th mem cnt loom h5ad cr ug em).1 := by
  simp only [filter_with_bustools, fst_ite, m2c_fst_congr o1 o2]

theorem filter_cmds_congr (env : Env) (o1 o2 : Oracle)
    (bus ec tx t2g wl fb : String) (ft : Option Nat) (cp : String)
    (tcc mm kite : Bool) (td : String) (th : Nat) (mem : String)
    (cnt loom h5ad cr ug em : Bool) :
    cmds (filter_with_bustools env o1 bus ec tx t2g wl fb ft cp tcc mm kite td
        th mem cnt loom h5ad cr ug em).2
      = cmds (filter_with_bustools env o2 bus ec tx t2g wl fb ft cp tcc mm kite
        td th mem cnt loom h5ad cr ug em).2 := by
  simp only [filter_with_bustools, cmds_append, snd_ite, cmds_ite, m2c_cmds]

theorem countFilterPart_fst_congr (env : Env) (o1 o2 : Oracle) (a : CountArgs)
    (cb ec tx : String) :
    (countFilterPart env o1 a cb ec tx).1 = (countFilterPart env o2 a cb ec tx).1 := by
  unfold countFilterPart
  split
  · exact filter_fst_congr env o1 o2 _ _ _ _ _ _ _ _ _ _ _ _ _ _ _ _ _ _ _ _
  · rfl

theorem countFilterPart_cmds_congr (env : Env) (o1 o2 : Oracle) (a : CountArgs)
    (cb ec tx : String) :
    cmds (countFilterPart env o1 a cb ec tx).2
      = cmds (countFilterPart env o2 a cb ec tx).2 := by
  unfold countFilterPart
  split
  · exact filter_cmds_congr env o1 o2 _ _ _ _ _ _ _ _ _ _ _ _ _ _ _ _ _ _ _ _
  · rfl

theorem countBusPart_fst_congr (env : Env) (o1 o2 : Oracle) (a : CountArgs) :
    (countBusPart env o1 a).1 = (countBusPart env o2 a).1 := by
  simp only [countBusPart]
  cases hrun : countRunBus env a
  · simp only [Bool.false_eq_true, if_false]
  · simp only [eq_self_iff_true, if_true]
    by_cases hlen : a.index_paths.length > 1
    · rw [if_pos hlen, if_pos hlen]
      rfl
    · rw [if_neg hlen, if_neg hlen]
      cases hbatch : a.fastqs.isBatch
      · simp only [Bool.false_eq_true, if_false]
      · simp only [eq_self_iff_true, if_true]
        simp only [stream_batch_fst]

theorem countBusPart_cmds_congr (env : Env) (o1 o2 : Oracle) (a : CountArgs) :
    cmds (countBusPart env o1 a).2 = cmds (countBusPart env o2 a).2 := by
  simp only [countBusPart]
  cases hrun : countRunBus env a
  · simp only [Bool.false_eq_true, if_false]
  · simp only [eq_self_iff_true, if_true]
    by_cases hlen : a.index_paths.length > 1
    · rw [if_pos hlen, if_pos hlen]
      exact kallisto_bus_split_cmds_congr env o1 o2 a.fastqs.asList a.index_paths
        (countTechSub a.technology) a.out_dir a.temp_dir a.threads a.memory
        a.paired a.strand 0
    · rw [if_neg hlen, if_neg hlen]
      cases hbatch : a.fastqs.isBatch
      · simp only [Bool.false_eq_true, if_false]
      · simp only [eq_self_iff_true, if_true]
        simp only [stream_batch_fst, cmds_append, stream_batch_cmds]

theorem ss3BusPart_fst_congr (env : Env) (o1 o2 : Oracle) (a : Ss3Args) :
    (ss3BusPart env o1 a).1 = (ss3BusPart env o2 a).1 := by
  simp only [ss3BusPart]
  cases hrun : ss3RunBus env a
  · simp only [Bool.false_eq_true, if_false]
  · simp only [eq_self_iff_true, if_true]
    by_cases hlen : a.index_paths.length > 1
    · rw [if_pos hlen, if_pos hlen]
      rfl
    · rw [if_neg hlen, if_neg hlen]
      cases hbatch : a.fastqs.isBatch
      · simp only [Bool.false_eq_true, if_false]
      · simp only [eq_self_iff_true, if_true]
        simp only [stream_batch_fst]

theorem ss3BusPart_cmds_congr (env : Env) (o1 o2 : Oracle) (a : Ss3Args) :
    cmds (ss3BusPart env o1 a).2 = cmds (ss3BusPart env o2 a).2 := by
  simp only [ss3BusPart]
  cases hrun : ss3RunBus env a
  · simp only [Bool.false_eq_true, if_false]
  · simp only [eq_self_iff_true, if_true]
    by_cases hlen : a.index_paths.length > 1
    · rw [if_pos hlen, if_pos hlen]
      exact kallisto_bus_split_cmds_congr env o1 o2 a.fastqs.asList a.index_paths
        "SMARTSEQ3" a.out_dir a.temp_dir a.threads a.memory true a.strand 0
    · rw [if_neg hlen, if_neg hlen]
      cases hbatch : a.fastqs.isBatch
      · simp only [Bool.false_eq_true, if_false]
      · simp only [eq_self_iff_true, if_true]
        simp only [stream_batch_fst, cmds_append, stream_batch_cmds]

theorem velBusPart_fst_congr (env : Env) (o1 o2 : Oracle) (a : VelArgs) :
    (velBusPart env o1 a).1 = (velBusPart env o2 a).1 := by
  simp only [velBusPart]
  cases hrun : velRunBus env a
  · simp only [Bool.false_eq_true, if_false]
  · simp only [eq_self_iff_true, if_true]
    by_cases hlen : a.index_paths.length > 1
    · rw [if_pos hlen, if_pos hlen]
      rfl
    · rw [if_neg hlen, if_neg hlen]

theorem velBusPart_cmds_congr (env : Env) (o1 o2 : Oracle) (a : VelArgs) :
    cmds (velBusPart env o1 a).2 = cmds (velBusPart env o2 a).2 := by
  simp only [velBusPart]
  cases hrun : velRunBus env a
  · simp only [Bool.false_eq_true, if_false]
  · simp only [eq_self_iff_true, if_true]
    by_cases hlen : a.index_paths.length > 1
    · rw [if_pos hlen, if_pos hlen]
      exact kallisto_bus_split_cmds_congr env o1 o2 a.fastqs.asList a.index_paths
        a.technology a.out_dir a.temp_dir a.threads a.memory false a.strand 0
    · rw [if_neg hlen, if_neg hlen]

theorem velocityPass_fst_congr (env : Env) (o1 o2 : Oracle) (a : VelArgs)
    (wlOpt : Option String) (sb ec tx pfx t2c : String) :
    (velocityPass env o1 a wlOpt sb ec tx pfx t2c).1
      = (velocityPass env o2 a wlOpt sb ec tx pfx t2c).1 := by
  simp only [velocityPass, fst_ite, m2c_fst_congr o1 o2]

theorem velocityPass_cmds_congr (env : Env) (o1 o2 : Oracle) (a : VelArgs)
    (wlOpt : Option String) (sb ec tx pfx t2c : String) :
    cmds (velocityPass env o1 a wlOpt sb ec tx pfx t2c).2
      = cmds (velocityPass env o2 a wlOpt sb ec tx pfx t2c).2 := by
  simp only [velocityPass, cmds_append, snd_ite, cmds_ite, m2c_cmds]

theorem velocityFilteredPass_fst_congr (env : Env) (o1 o2 : Oracle)
    (a : VelArgs) (fb ec tx pfx t2c : String) :
    (velocityFilteredPass env o1 a fb ec tx pfx t2c).1
      = (velocityFilteredPass env o2 a fb ec tx pfx t2c).1 := rfl

theorem velocityFilteredPass_snd1_congr (env : Env) (o1 o2 : Oracle)
    (a : VelArgs) (fb ec tx pfx t2c : String) :
    (velocityFilteredPass env o1 a fb ec tx pfx t2c).2.1
      = (velocityFilteredPass env o2 a fb ec tx pfx t2c).2.1 := by
  simp only [velocityFilteredPass, fst_ite, m2c_fst_congr o1 o2]

theorem velocityFilteredPass_cmds_congr (env : Env) (o1 o2 : Oracle)
    (a : VelArgs) (fb ec tx pfx t2c : String) :
    cmds (velocityFilteredPass env o1 a fb ec tx pfx t2c).2.2
      = cmds (velocityFilteredPass env o2 a fb ec tx pfx t2c).2.2 := by
  simp only [velocityFilteredPass, cmds_append, snd_ite, cmds_ite, m2c_cmds]

theorem velocityFilterPart_fst_congr (env : Env) (o1 o2 : Oracle) (a : VelArgs)
    (sb ec tx : String) :
    (velocityFilterPart env o1 a sb ec tx).1
      = (velocityFilterPart env o2 a sb ec tx).1 := by
  simp only [velocityFilterPart]
  split
  · rw [filter_fst_congr env o1 o2]
    rw [velocityFilteredPass_fst_congr env o1 o2,
        velocityFilteredPass_fst_congr env o1 o2]
  · rfl

theorem velocityFilterPart_snd1_congr (env : Env) (o1 o2 : Oracle) (a : VelArgs)
    (sb ec tx : String) :
    (velocityFilterPart env o1 a sb ec tx).2.1
      = (velocityFilterPart env o2 a sb ec tx).2.1 := by
  simp only [velocityFilterPart]
  split
  · rw [filter_fst_congr env o1 o2]
    rw [velocityFilteredPass_snd1_congr env o1 o2,
        velocityFilteredPass_snd1_congr env o1 o2]
  · rfl

theorem velocityFilterPart_cmds_congr (env : Env) (o1 o2 : Oracle) (a : VelArgs)
    (sb ec tx : String) :
    cmds (velocityFilterPart env o1 a sb ec tx).2.2
      = cmds (velocityFilterPart env o2 a sb ec tx).2.2 := by
  simp only [velocityFilterPart]
  split
  · rw [filter_fst_congr env o1 o2]
    rw [velocityFilteredPass_fst_congr env o1 o2,
        velocityFilteredPass_fst_congr env o1 o2]
    simp only [cmds_append, snd_ite, cmds_ite]
    rw [filter_cmds_congr env o1 o2,
        velocityFilteredPass_cmds_congr env o1 o2,
        velocityFilteredPass_cmds_congr env o1 o2]
  · rfl

set_option maxHeartbeats 1000000 in
/-- C6: the pipeline never depends on the contents of a BUS file — nor of
any other file: for each orchestrator the returned result dictionary and
the sequence of command lines it constructs are identical for any two
file-content oracles, so runs differing only in the bytes stored inside
the BUS files construct identical commands and return identical result
dictionaries; file contents flow only into the contents of written text
files, never into paths, flags or results. -/
theorem C6_oracle_noninterference (env : Env) (o1 o2 : Oracle) (a : CountArgs)
    (a3 : Ss3Args) (av : VelArgs) :
    ((count env o1 a).1 = (count env o2 a).1
      ∧ cmds (count env o1 a).2 = cmds (count env o2 a).2)
    ∧ ((count_smartseq3 env o1 a3).1 = (count_smartseq3 env o2 a3).1
      ∧ cmds (count_smartseq3 env o1 a3).2 = cmds (count_smartseq3 env o2 a3).2)
    ∧ ((count_velocity env o1 av).1 = (count_velocity env o2 av).1
      ∧ cmds (count_velocity env o1 av).2 = cmds (count_velocity env o2 av).2) := by
  refine ⟨⟨?_, ?_⟩, ⟨?_, ?_⟩, ⟨?_, ?_⟩⟩
  · simp only [count, fst_ite, m2c_fst_congr o1 o2]
    rw [countBusPart_fst_congr env o1 o2, countFilterPart_fst_congr env o1 o2]
  · simp only [count, List.append_assoc]
    rw [countBusPart_fst_congr env o1 o2]
    simp only [cmds_append, snd_ite, cmds_ite, m2c_cmds]
    rw [countBusPart_cmds_congr env o1 o2, countFilterPart_cmds_congr env o1 o2]
  · simp only [count_smartseq3]
    rw [ss3BusPart_fst_congr env o1 o2]
  · simp only [count_smartseq3, List.append_assoc]
    rw [ss3BusPart_fst_congr env o1 o2]
    simp only [cmds_append, snd_ite, cmds_ite]
    rw [ss3BusPart_cmds_congr env o1 o2]
  · simp only [count_velocity, fst_ite, m2c_fst_congr o1 o2]
    rw [velBusPart_fst_congr env o1 o2]
    rw [velocityPass_fst_congr env o1 o2, velocityPass_fst_congr env o1 o2]
    rw [velocityFilterPart_fst_congr env o1 o2,
        velocityFilterPart_snd1_congr env o1 o2]
  · simp only [count_velocity, List.append_assoc]
    rw [velBusPart_fst_congr env o1 o2]
    rw [velocityPass_fst_congr env o1 o2, velocityPass_fst_congr env o1 o2]
    simp only [cmds_append, snd_ite, cmds_ite, m2c_cmds]
    rw [velBusPart_cmds_congr env o1 o2,
        velocityPass_cmds_congr env o1 o2, velocityPass_cmds_congr env o1 o2,
        velocityFilterPart_cmds_congr env o1 o2]

/-- Witness for C2 at a concrete two-index invocation. -/
theorem C2_kallisto_bus_split_pipeline_witness :
    (1 < (["i1", "i2"] : List String).length)
    ∧ ((cmds (kallisto_bus_split envW oW ["r1.fastq"] ["i1", "i2"] "10XV3"
          "out" "tmp" 8 "4G" false none 0).2.2).all (fun c =>
        !(c.get? 1 == some (Arg.lit "bus"))
        || (c.contains (Arg.lit "--num") && c.contains (Arg.lit "--kmer")))) = true :=
  ⟨by decide,
   (C2_kallisto_bus_split_pipeline envW oW ["r1.fastq"] ["i1", "i2"] "10XV3"
     "out" "tmp" 8 "4G" false none 0 (by decide)).2⟩

/-! ## Claim C5 -/

/-- Counterexample for C5: `matrix_to_cellranger` is an operation of this
repository that invokes no external binary at all and instead reads and
rewrites matrix, barcode and gene file contents itself — refuting "every
operation shells out to an external binary exactly once ... no operation
performs any file-content processing of its own". -/
theorem C5_single_exec_counterexample :
    (cmds (matrix_to_cellranger oW "m.mtx" "b.txt" "g.txt" "t2g.txt" "out").2).length = 0
    ∧ ((matrix_to_cellranger oW "m.mtx" "b.txt" "g.txt" "t2g.txt" "out").2.any
        isWriteEvent) = true := by
  constructor <;> rfl

/-- C5 (amended): every *external-tool wrapper* invokes its binary exactly
once per call; but `bustools_mash` additionally reads the per-part
`run_info.json` files and writes the combined one, and
`matrix_to_cellranger`, `convert_transcripts_to_genes`,
`write_smartseq_batch`, `write_smartseq3_capture` and `stream_batch`
process file contents themselves without invoking any external binary. -/
theorem C5_wrappers_single_exec (env : Env) (o : Oracle)
    (p1 p2 p3 p4 p5 : String) (dirs : List String) (b1 b2 b3 : Bool)
    (n1 : Nat) (os1 os2 : Option String) (on1 on2 : Option Nat)
    (pairs : List (String × String)) (ids : List String) :
    (cmds (kallisto_pseudo env p1 p2 p3 n1).2).length = 1
    ∧ (cmds (kallisto_bus env (Fastqs.files [p1]) p2 p3 p4 n1 b1 b2 b3 os1).2).length = 1
    ∧ (cmds (kallisto_quant_tcc env p1 p2 p3 p4 p5 os1 on1 on2 n1).2).length = 1
    ∧ (cmds (bustools_mash env o dirs p1).2).length = 1
    ∧ ((bustools_mash env o dirs p1).2.any isWriteEvent) = true
    ∧ (cmds (bustools_merge env p1 p2 p3 p4).2).length = 1
    ∧ (cmds (bustools_project env p1 p2 p3 p4 p5).2).length = 1
    ∧ (cmds (bustools_sort env p1 p2 p3 n1 p4 b1).2).length = 1
    ∧ (cmds (bustools_inspect env p1 p2 os1 os2).2).length = 1
    ∧ (cmds (bustools_correct env p1 p2 p3).2).length = 1
    ∧ (cmds (bustools_count env p1 p2 p3 p4 p5 b1 b2 b3 b1 b2).2).length = 1
    ∧ (cmds (bustools_capture env p1 p2 p3 os1 os2 p4 b1).2).length = 1
    ∧ (cmds (bustools_whitelist env p1 p2 on1).2).length = 1
    ∧ (cmds (matrix_to_cellranger o p1 p2 p3 p4 p5).2).length = 0
    ∧ ((matrix_to_cellranger o p1 p2 p3 p4 p5).2.any isWriteEvent) = true
    ∧ (cmds (convert_transcripts_to_genes env o p1 p2 p3).2).length = 0
    ∧ ((convert_transcripts_to_genes env o p1 p2 p3).2.any isWriteEvent) = true
    ∧ (cmds (write_smartseq_batch pairs ids p1).2).length = 0
    ∧ ((write_smartseq_batch pairs ids p1).2.any isWriteEvent) = true
    ∧ (cmds (write_smartseq3_capture p1).2).length = 0
    ∧ ((write_smartseq3_capture p1).2.any isWriteEvent) = true
    ∧ (cmds (stream_batch o p1 p2 n1).2).length = 0
    ∧ ((stream_batch o p1 p2 n1).2.any isWriteEvent) = true := by
  refine ⟨rfl, rfl, rfl, ?_, ?_, rfl, rfl, rfl, rfl, rfl, rfl, rfl, rfl,
    rfl, rfl, rfl, rfl, rfl, rfl, rfl, rfl, rfl, rfl⟩
  · show (cmds ([Event.cmd _] ++ dirs.map (fun d => Event.read
        (joinPath d KALLISTO_INFO_FILENAME)) ++ [Event.write _ _])).length = 1
    rw [cmds_append, cmds_append, cmds_map_read]
    rfl
  · show (([Event.cmd _] ++ dirs.map (fun d => Event.read
        (joinPath d KALLISTO_INFO_FILENAME)) ++ [Event.write _ _]).any
        isWriteEvent) = true
    simp [isWriteEvent]

/-- Witness for C10: two indices trigger the multiple-index exception with
an empty trace. -/
theorem C10_count_smartseq_checks_witness :
    (ssArgsW.index_paths.length > 1)
    ∧ ((count_smartseq envW oW ssArgsW).1
        = SsOutcome.err "Technology SMARTSEQ does not support multiple indices."
      ∧ (count_smartseq envW oW ssArgsW).2 = []) := by
  refine ⟨by decide, ?_⟩
  have h := (C10_count_smartseq_checks envW oW ssArgsW).1 (by decide)
  exact h

end KbPython
